import Mathlib

/-!
Verification of the Simply-AI (Home Edition) chat/RAG server against its
natural-language specification.  The definitions below are shallow embeddings
of the Python source under `app/`: pure functions are translated directly,
stateful routes and services become explicit state passing, external
collaborators (the chroma library, the LLM providers, the database commit,
the crypto layer) become explicit parameters describing their outcome.
Python integers become `Nat`/`Int`, Python strings become `String`
(all inputs considered are ASCII), dictionaries become structures.
-/

/-! ## Python string helpers

Small executable models of the Python `str` operations the embedded code
uses.  They operate on `List Char` / `String` and mirror CPython semantics
on the ASCII inputs that appear in this development. -/

/-- Whitespace recognised by the Python `str.strip` / `str.split` /
regex `\s` on the characters occurring in this development. -/
def pyIsSpace (c : Char) : Bool :=
  c = ' ' || c = '\t' || c = '\n' || c = '\r' || c = '\x0b' || c = '\x0c'

/-- Python `str.strip()` (no arguments): remove leading and trailing
whitespace. -/
def pyStrip (s : String) : String :=
  ⟨((s.data.dropWhile pyIsSpace).reverse.dropWhile pyIsSpace).reverse⟩

/-- Word pass of `pySplitWs`: `accR` is the current word reversed. -/
def splitWsGo : List Char → List Char → List String
  | [], accR => if accR = [] then [] else [⟨accR.reverse⟩]
  | c :: cs, accR =>
    if pyIsSpace c then
      if accR = [] then splitWsGo cs []
      else (⟨accR.reverse⟩ : String) :: splitWsGo cs []
    else splitWsGo cs (c :: accR)

/-- Python `str.split()` (no arguments): split on whitespace runs and drop
empty pieces. -/
def pySplitWs (s : String) : List String :=
  splitWsGo s.data []

/-- Python `s[:n]` for `n ≥ 0`. -/
def pyTake (s : String) (n : Nat) : String :=
  ⟨s.data.take n⟩

/-- Python `sep.join(l)`. -/
def pyJoin (sep : String) : List String → String
  | [] => ""
  | [x] => x
  | x :: rest => x ++ sep ++ pyJoin sep rest

/-- One step of `splitOnSepGo`: `List.isPrefixOf` decides whether the
separator starts here. -/
def splitOnSepGo (sep : List Char) : Nat → List Char → List (List Char)
  | 0, cs => [cs]
  | _ + 1, [] => [[]]
  | fuel + 1, c :: cs =>
    if sep.isPrefixOf (c :: cs) then
      [] :: splitOnSepGo sep fuel ((c :: cs).drop sep.length)
    else
      match splitOnSepGo sep fuel cs with
      | [] => [[c]]
      | p :: ps => (c :: p) :: ps

/-- Python `str.split(sep)` for a non-empty literal separator: split at each
leftmost non-overlapping occurrence, keeping empty pieces. -/
def pySplitOn (sep : String) (s : String) : List String :=
  (splitOnSepGo sep.data (s.length + 1) s.data).map (fun cs => ⟨cs⟩)

/-- Search step for `pyFind`. -/
def pyFindGo (pat : List Char) : Nat → List Char → Nat → Int
  | 0, _, _ => -1
  | _ + 1, [], i => if pat = [] then (i : Int) else -1
  | fuel + 1, c :: cs, i =>
    if pat.isPrefixOf (c :: cs) then (i : Int) else pyFindGo pat fuel cs (i + 1)

/-- Python `str.find`: index of the first occurrence of `pat` in `s`, or
`-1` when absent. -/
def pyFind (s pat : String) : Int :=
  pyFindGo pat.data (s.length + 1) s.data 0

/-- Length of the Python slice `s[:k]` where `k` may be any integer
(negative values clamp as CPython does for `k = find(..) + len(..) ≥ 0`;
the general clamp is `min (max k 0) (len s)`). -/
def pySliceLen (s : String) (k : Int) : Nat :=
  min (max k 0).toNat s.length

/-- Python `str.lower` on ASCII. -/
def pyLower (s : String) : String :=
  ⟨s.data.map Char.toLower⟩

/-- One replacement step of Python `str.replace` (all non-overlapping
occurrences, left to right). -/
def pyReplaceGo (pat repl : List Char) : Nat → List Char → List Char
  | 0, cs => cs
  | _ + 1, [] => []
  | fuel + 1, c :: cs =>
    if pat ≠ [] ∧ pat.isPrefixOf (c :: cs) then
      repl ++ pyReplaceGo pat repl fuel ((c :: cs).drop pat.length)
    else
      c :: pyReplaceGo pat repl fuel cs

/-- Python `str.replace(pat, repl)` for non-empty `pat`. -/
def pyReplace (s pat repl : String) : String :=
  ⟨pyReplaceGo pat.data repl.data (s.length + 1) s.data⟩

/-! ## C9: secret masking

`EncryptionService.mask_api_key` (`app/services/encryption_service.py`) and
`AdminSettings.get_masked_system_api_key` / `get_system_api_key`
(`app/models/admin_settings.py`).  The settings table is modelled as an
association list from `setting_key` to `setting_value`; the Fernet
encryption layer is an out-of-scope collaborator and is modelled by an
explicit `decrypt` parameter. -/

/-- Model of `EncryptionService.mask_api_key`: empty or too-short keys mask
to the empty string, otherwise the first `show_chars` characters are kept
and `"..."` is appended. -/
def mask_api_key (api_key : String) (show_chars : Nat) : String :=
  if api_key = "" || api_key.length < show_chars then ""
  else pyTake api_key show_chars ++ "..."

/-- `AdminSettings.SUPPORTED_PROVIDERS`. -/
def SUPPORTED_PROVIDERS : List String := ["gemini", "openai", "anthropic", "xai"]

/-- The `admin_settings` table: `setting_key ↦ setting_value` pairs, first
match wins (`query.filter_by(...).first()`). -/
structure SettingsStore where
  settings : List (String × String)

/-- `AdminSettings.get_setting(key, default)` restricted to the string
projection used by the API-key accessors. -/
def get_setting (store : SettingsStore) (key default : String) : String :=
  match store.settings.find? (fun kv => kv.1 = key) with
  | some kv => kv.2
  | none => default

/-- `AdminSettings.get_system_api_key(provider)`: decrypt the stored
ciphertext, empty string when the provider is unsupported or nothing is
stored.  `decrypt` models `EncryptionService.decrypt`. -/
def get_system_api_key (decrypt : String → String) (store : SettingsStore)
    (provider : String) : String :=
  if provider ∈ SUPPORTED_PROVIDERS then
    let encrypted_key := get_setting store ("system_api_key_" ++ provider) ""
    if encrypted_key = "" then "" else decrypt encrypted_key
  else ""

/-- `AdminSettings.get_masked_system_api_key(provider, show_chars)`. -/
def get_masked_system_api_key (decrypt : String → String) (store : SettingsStore)
    (provider : String) (show_chars : Nat) : String :=
  let api_key := get_system_api_key decrypt store provider
  if api_key = "" then "" else mask_api_key api_key show_chars

/-! ## C8: vector store query

`VectorStore.query` (`app/services/vector_store.py`).  The chroma client is
an external library: the per-tenant collections are modelled as an
association list `user_id ↦ collection`, and the raw answer of
`collection.query` (or the exception it raises) is an explicit parameter.
Distances are modelled as `Rat`. -/

/-- One raw hit as returned by the chroma `collection.query` call. -/
structure RawHit where
  chroma_id : String
  document : String
  document_id : Nat
  distance : Rat

/-- One formatted result of `VectorStore.query`. -/
structure QueryHit where
  chroma_id : String
  content : String
  document_id : Nat
  distance : Rat
  similarity : Rat

/-- The dict returned by `VectorStore.query`. -/
structure QueryResult where
  results : List QueryHit
  error : Option String

/-- The chroma vector store: one collection (list of chroma ids with their
document ids) per user that has ever had chunks added. -/
structure VectorStoreState where
  collections : List (Nat × List (String × Nat))

/-- `VectorStore.get_user_collection(user_id, create=False)`: `none` when
the tenant has no collection. -/
def get_user_collection (state : VectorStoreState) (user_id : Nat) :
    Option (List (String × Nat)) :=
  (state.collections.find? (fun c => c.1 = user_id)).map (fun c => c.2)

/-- `VectorStore.query(user_id, query_embedding, n_results, document_ids)`.
`chroma` is the outcome of the underlying `collection.query` library call:
`Sum.inl hits` when it returns, `Sum.inr e` when it raises `e`. -/
def VectorStore.query (state : VectorStoreState) (user_id : Nat)
    (chroma : List RawHit ⊕ String) : QueryResult :=
  match get_user_collection state user_id with
  | none => { results := [], error := some "User has no document collection" }
  | some _ =>
    match chroma with
    | Sum.inl hits =>
      { results := hits.map (fun h =>
          { chroma_id := h.chroma_id
            content := h.document
            document_id := h.document_id
            distance := h.distance
            similarity := 1 / (1 + h.distance) })
        error := none }
    | Sum.inr e => { results := [], error := some ("Query failed: " ++ e) }

/-! ## C10: document upload

`RAGService.save_uploaded_document` (`app/services/rag_service.py`) and the
`Document` model (`app/models/document.py`).  SQLAlchemy's default
declarative constructor accepts a keyword argument `k` only when the mapped
class has an attribute named `k` (a column or a relationship) and raises
`TypeError` otherwise; `documentInit` models exactly that check for the
keyword set `save_uploaded_document` passes. -/

/-- The attributes defined on the `Document` model: its columns and
relationships.  There is no `project_id` among them. -/
def documentModelAttrs : List String :=
  ["id", "user_id", "original_filename", "stored_filename", "file_path",
   "mime_type", "file_size", "file_type", "status", "error_message",
   "chunk_count", "total_tokens", "embedding_model",
   "created_at", "updated_at", "processed_at", "user", "chunks"]

/-- The keyword-argument names `save_uploaded_document` passes to
`Document(...)` (rag_service.py lines 564-574). -/
def documentInitKwargs : List String :=
  ["user_id", "project_id", "original_filename", "stored_filename",
   "file_path", "mime_type", "file_size", "file_type", "status"]

/-- SQLAlchemy declarative constructor: `TypeError` when any keyword is not
an attribute of the model. -/
def documentInit (kwargs : List String) : Except String Unit :=
  match kwargs.find? (fun k => ¬ (k ∈ documentModelAttrs)) with
  | some k => Except.error (k ++ " is an invalid keyword argument for Document")
  | none => Except.ok ()

/-- `DocumentExtractor.SUPPORTED_TYPES` keys (`document_extractor.py`). -/
def supportedExtensions : List String :=
  ["pdf", "txt", "md", "csv", "json", "docx", "xlsx"]

/-- `DocumentExtractor.is_supported(file_type)`. -/
def DocumentExtractor.is_supported (ext : String) : Bool :=
  (pyLower ext) ∈ supportedExtensions

/-- `Path(name).suffix.lower().strip('.')`: the lower-cased extension after
the last dot of the final path component, empty when there is no dot. -/
def fileExt (name : String) : String :=
  match (pySplitOn "." name).reverse with
  | [] => ""
  | [_] => ""
  | ext :: _ => pyLower ext

/-- The dict returned by `RAGService.save_uploaded_document`. -/
structure SaveResult where
  success : Bool
  document_id : Option Nat
  error : Option String

/-- A persisted `documents` row (the fields relevant to the claims). -/
structure DocRow where
  id : Nat
  user_id : Nat
  status : String

/-- `RAGService.save_uploaded_document(user_id, file, project_id)`.
`can_upload`/`reason` are the result of `can_upload_document`; `filename`
is the (werkzeug-sanitised) uploaded filename, `""` when no file was sent;
`docs` is the `documents` table; `next_id` is the id the database would
assign.  The `Document(...)` construction passes `documentInitKwargs`
(including `project_id`), so `documentInit` decides whether the `try`
block raises; on `TypeError` the `except` branch rolls back and reports
failure. -/
def save_uploaded_document (can_upload : Bool) (reason : Option String)
    (filename : String) (docs : List DocRow) (user_id next_id : Nat) :
    SaveResult × List DocRow :=
  if ¬ can_upload then
    ({ success := false, document_id := none, error := reason }, docs)
  else if filename = "" then
    ({ success := false, document_id := none, error := some "No file provided" }, docs)
  else if ¬ DocumentExtractor.is_supported (fileExt filename) then
    ({ success := false, document_id := none,
       error := some "Unsupported file type. Supported: pdf, txt, md, csv, json, docx, xlsx" }, docs)
  else
    match documentInit documentInitKwargs with
    | Except.error e =>
      ({ success := false, document_id := none, error := some e }, docs)
    | Except.ok _ =>
      ({ success := true, document_id := some next_id, error := none },
        docs ++ [{ id := next_id, user_id := user_id, status := "pending" }])

/-! ## C7: chunking service

`ChunkingService` (`app/services/chunking_service.py`), embedded in its
deterministic token-estimation mode (`_get_tokenizer()` returning `None`,
so `_count_tokens(text) = len(text) // 4`); this is the mode the source
itself defines, the alternative being the external `tiktoken` library. -/

/-- `ChunkingService.CHARS_PER_TOKEN`. -/
def CHARS_PER_TOKEN : Nat := 4

/-- `ChunkingService.DEFAULT_MIN_CHUNK_SIZE`. -/
def DEFAULT_MIN_CHUNK_SIZE : Nat := 50

/-- `ChunkingService._count_tokens` in character-estimation mode:
`len(text) // CHARS_PER_TOKEN`. -/
def count_tokens (s : String) : Nat := s.length / CHARS_PER_TOKEN

/-- One chunk dictionary produced by the chunker. -/
structure Chunk where
  content : String
  token_count : Nat
  start_char : Nat
  end_char : Nat
  page_number : Option Nat
  deriving DecidableEq

/-- Sentence terminators `[.!?]` of the sentence-split regex. -/
def isSentEnd (c : Char) : Bool := c = '.' || c = '!' || c = '?'

/-- The class `[A-Z]` of the sentence-split regex (no IGNORECASE there). -/
def isUpperAZ (c : Char) : Bool := 'A' ≤ c && c ≤ 'Z'

/-- Segment pass of `re.split(r'(?<=[.!?])\s+(?=[A-Z])|(?<=[.!?])$', text)`:
a delimiter is a maximal whitespace run immediately preceded by a sentence
terminator and immediately followed by an upper-case letter (the shorter
sub-runs fail the `(?=[A-Z])` lookahead); the `$` alternative only adds a
trailing empty piece, which the caller filters away.  `accR` is the current
segment reversed, `run` a candidate delimiter run being scanned. -/
def sentSplitGo : List Char → List Char → List Char → List (List Char)
  | [], accR, run => [accR.reverse ++ run]
  | c :: cs, accR, run =>
    if run ≠ [] then
      if pyIsSpace c then sentSplitGo cs accR (run ++ [c])
      else if isUpperAZ c then accR.reverse :: sentSplitGo cs [c] []
      else sentSplitGo cs ((run ++ [c]).reverse ++ accR) []
    else
      if pyIsSpace c && (match accR with | p :: _ => isSentEnd p | [] => false) then
        sentSplitGo cs accR [c]
      else sentSplitGo cs (c :: accR) []

/-- `ChunkingService._split_into_sentences`. -/
def _split_into_sentences (text : String) : List String :=
  let parts := (sentSplitGo text.data [] []).map (fun cs => (⟨cs⟩ : String))
  let sentences := (parts.map pyStrip).filter (fun s => s ≠ "")
  if sentences.length ≤ 1 ∧ text.length > 500 then
    let paragraphs := pySplitOn "\n\n" text
    if paragraphs.length > 1 then
      (paragraphs.map pyStrip).filter (fun s => s ≠ "")
    else
      let lines := pySplitOn "\n" text
      if lines.length > 1 then
        (lines.map pyStrip).filter (fun s => s ≠ "")
      else sentences
  else sentences

/-- Inner loop of the overlap computation (`for s in reversed(...)` with
`insert(0, s)` and `break`): `rev` is the reversed buffer still to visit. -/
def takeOverlapGo (tokOf : String → Nat) (overlap : Nat) :
    List String → List String → Nat → List String × Nat
  | [], acc, t => (acc, t)
  | s :: rest, acc, t =>
    if t + tokOf s ≤ overlap then takeOverlapGo tokOf overlap rest (s :: acc) (t + tokOf s)
    else (acc, t)

/-- The overlap-seed computation shared by `_chunk_text` (over sentences,
token function `_count_tokens(s)`) and `_split_large_text` (over words,
token function `_count_tokens(w + ' ')`): keep the longest suffix of the
buffer whose token total stays within `overlap`. -/
def takeOverlap (tokOf : String → Nat) (overlap : Nat) (buffer : List String) :
    List String × Nat :=
  takeOverlapGo tokOf overlap buffer.reverse [] 0

/-- Loop state of `_split_large_text`. -/
structure SplitState where
  current_words : List String
  current_tokens : Nat
  current_start : Nat
  chunks : List Chunk

/-- Word loop of `_split_large_text`. -/
def split_large_go (chunk_size overlap : Nat) : List String → SplitState → SplitState
  | [], st => st
  | w :: ws, st =>
    let word_tokens := count_tokens (w ++ " ")
    if st.current_tokens + word_tokens > chunk_size ∧ st.current_words ≠ [] then
      let chunk_text := pyJoin " " st.current_words
      let emitted : Chunk :=
        { content := chunk_text, token_count := st.current_tokens,
          start_char := st.current_start, end_char := st.current_start + chunk_text.length,
          page_number := none }
      let ov := takeOverlap (fun s => count_tokens (s ++ " ")) overlap st.current_words
      let new_start := st.current_start + chunk_text.length - (pyJoin " " ov.1).length
      split_large_go chunk_size overlap ws
        { current_words := ov.1 ++ [w], current_tokens := ov.2 + word_tokens,
          current_start := new_start, chunks := st.chunks ++ [emitted] }
    else
      split_large_go chunk_size overlap ws
        { st with current_words := st.current_words ++ [w],
                  current_tokens := st.current_tokens + word_tokens }

/-- `ChunkingService._split_large_text(text, chunk_size, overlap, tokenizer,
start_offset)`. -/
def _split_large_text (text : String) (chunk_size overlap start_offset : Nat) : List Chunk :=
  let words := pySplitWs text
  let st := split_large_go chunk_size overlap words
    { current_words := [], current_tokens := 0, current_start := start_offset, chunks := [] }
  if st.current_words ≠ [] then
    let chunk_text := pyJoin " " st.current_words
    st.chunks ++
      [{ content := chunk_text, token_count := st.current_tokens,
         start_char := st.current_start, end_char := st.current_start + chunk_text.length,
         page_number := none }]
  else st.chunks

/-- Loop state of `_chunk_text`. -/
structure ChunkState where
  current_chunk : List String
  current_tokens : Nat
  current_start : Nat
  chunks : List Chunk

/-- Sentence loop of `_chunk_text`; `full_text` is the stripped text (used
by the `text.find(sentence)` offset computation of the oversized-sentence
branch). -/
def chunk_text_go (full_text : String) (chunk_size overlap start_offset : Nat) :
    List String → ChunkState → ChunkState
  | [], st => st
  | sentence :: rest, st =>
    let sentence_tokens := count_tokens sentence
    if sentence_tokens > chunk_size then
      let chunks1 :=
        if st.current_chunk ≠ [] then
          let chunk_text := pyJoin " " st.current_chunk
          st.chunks ++
            [{ content := chunk_text, token_count := st.current_tokens,
               start_char := st.current_start, end_char := st.current_start + chunk_text.length,
               page_number := none }]
        else st.chunks
      let sub_chunks := _split_large_text sentence chunk_size overlap start_offset
      let new_start :=
        start_offset + pySliceLen full_text (pyFind full_text sentence + (sentence.length : Int))
      chunk_text_go full_text chunk_size overlap start_offset rest
        { current_chunk := [], current_tokens := 0, current_start := new_start,
          chunks := chunks1 ++ sub_chunks }
    else if st.current_tokens + sentence_tokens > chunk_size ∧ st.current_chunk ≠ [] then
      let chunk_text := pyJoin " " st.current_chunk
      let emitted : Chunk :=
        { content := chunk_text, token_count := st.current_tokens,
          start_char := st.current_start, end_char := st.current_start + chunk_text.length,
          page_number := none }
      let ov := takeOverlap count_tokens overlap st.current_chunk
      let new_start := start_offset + chunk_text.length - (pyJoin " " ov.1).length
      chunk_text_go full_text chunk_size overlap start_offset rest
        { current_chunk := ov.1 ++ [sentence], current_tokens := ov.2 + sentence_tokens,
          current_start := new_start, chunks := st.chunks ++ [emitted] }
    else
      chunk_text_go full_text chunk_size overlap start_offset rest
        { st with current_chunk := st.current_chunk ++ [sentence],
                  current_tokens := st.current_tokens + sentence_tokens }

/-- `ChunkingService._chunk_text(text, chunk_size, overlap, tokenizer,
start_offset)`. -/
def _chunk_text (text : String) (chunk_size overlap start_offset : Nat) : List Chunk :=
  let text := pyStrip text
  if text = "" then []
  else
    let sentences := _split_into_sentences text
    let st := chunk_text_go text chunk_size overlap start_offset sentences
      { current_chunk := [], current_tokens := 0, current_start := start_offset, chunks := [] }
    if st.current_chunk ≠ [] then
      let chunk_text := pyJoin " " st.current_chunk
      if DEFAULT_MIN_CHUNK_SIZE ≤ count_tokens chunk_text then
        st.chunks ++
          [{ content := chunk_text, token_count := st.current_tokens,
             start_char := st.current_start, end_char := st.current_start + chunk_text.length,
             page_number := none }]
      else st.chunks
    else st.chunks

/-- Page loop of `_chunk_with_pages`: blank pages only advance the running
offset (page separator counts as two characters). -/
def chunk_with_pages_go (chunk_size overlap : Nat) :
    List String → Nat → Nat → List Chunk
  | [], _, _ => []
  | page_text :: rest, page_num, offset =>
    if pyStrip page_text = "" then
      chunk_with_pages_go chunk_size overlap rest (page_num + 1) (offset + page_text.length + 2)
    else
      ((_chunk_text page_text chunk_size overlap offset).map
        (fun c => { c with page_number := some page_num })) ++
      chunk_with_pages_go chunk_size overlap rest (page_num + 1) (offset + page_text.length + 2)

/-- `ChunkingService._chunk_with_pages`. -/
def _chunk_with_pages (pages : List String) (chunk_size overlap : Nat) : List Chunk :=
  chunk_with_pages_go chunk_size overlap pages 1 0

/-- `ChunkingService.chunk_document(text, chunk_size, overlap, pages)`. -/
def chunk_document (text : String) (chunk_size overlap : Nat)
    (pages : Option (List String)) : List Chunk :=
  if pyStrip text = "" then []
  else
    match pages with
    | some ps => if 0 < ps.length then _chunk_with_pages ps chunk_size overlap
                 else _chunk_text text chunk_size overlap 0
    | none => _chunk_text text chunk_size overlap 0

/-! ## C1 / C5: ingestion pipeline

`RAGService.process_document` (`app/services/rag_service.py`) and
`VectorStore.add_chunks` (`app/services/vector_store.py`), with the
`Document` state helpers of `app/models/document.py`.  The database and the
chroma store are explicit state; the embedding provider, the chroma `add`
call, the id generator (`uuid.uuid4`) and the step-6 database commit are
explicit outcome parameters. -/

/-- A `documents` row with its processing fields. -/
structure DocumentRec where
  id : Nat
  user_id : Nat
  status : String
  error_message : Option String
  chunk_count : Nat
  total_tokens : Nat
  embedding_model : Option String
  deriving DecidableEq

/-- A `document_chunks` row. -/
structure ChunkRowRec where
  document_id : Nat
  chunk_index : Nat
  content : String
  token_count : Nat
  chroma_id : String
  deriving DecidableEq

/-- `Document.mark_processing`. -/
def mark_processing (d : DocumentRec) : DocumentRec :=
  { d with status := "processing", error_message := none }

/-- `Document.mark_failed`. -/
def mark_failed (d : DocumentRec) (e : String) : DocumentRec :=
  { d with status := "failed", error_message := some e }

/-- `Document.mark_ready`. -/
def mark_ready (d : DocumentRec) (chunk_count total_tokens : Nat)
    (embedding_model : String) : DocumentRec :=
  { d with status := "ready", chunk_count := chunk_count,
           total_tokens := total_tokens, embedding_model := some embedding_model,
           error_message := none }

/-- Update the row(s) with the given id (`Document.query.get` + mutation +
commit). -/
def updateDoc (docs : List DocumentRec) (id : Nat) (f : DocumentRec → DocumentRec) :
    List DocumentRec :=
  docs.map (fun d => if d.id = id then f d else d)

/-- The dict returned by `DocumentExtractor.extract`. -/
structure ExtractionResult where
  text : String
  pages : List String
  error : Option String

/-- The dict returned by `EmbeddingService.get_embeddings_batch`. -/
structure EmbeddingBatchResult where
  embeddings : List (List Rat)
  model : String
  error : Option String

/-- The dict returned by `VectorStore.add_chunks`. -/
structure AddChunksResult where
  success : Bool
  chroma_ids : List String
  error : Option String

/-- `get_or_create_collection`: adds an empty collection for the tenant when
absent. -/
def ensure_collection (state : VectorStoreState) (user_id : Nat) : VectorStoreState :=
  match get_user_collection state user_id with
  | some _ => state
  | none => { collections := state.collections ++ [(user_id, [])] }

/-- Append entries to the tenant collection. -/
def addToCollection (state : VectorStoreState) (user_id : Nat)
    (entries : List (String × Nat)) : VectorStoreState :=
  { collections := state.collections.map
      (fun c => if c.1 = user_id then (c.1, c.2 ++ entries) else c) }

/-- `VectorStore.add_chunks(user_id, chunks, embeddings, document_id)`.
`uuidGen i` models the `i`-th `str(uuid.uuid4())`; `addOk` is whether the
chroma `collection.add` call succeeds (it is atomic: all entries or none). -/
def VectorStore.add_chunks (state : VectorStoreState) (user_id : Nat)
    (chunks : List Chunk) (embeddings : List (List Rat)) (document_id : Nat)
    (uuidGen : Nat → String) (addOk : Bool) : AddChunksResult × VectorStoreState :=
  if chunks.length ≠ embeddings.length then
    ({ success := false, chroma_ids := [],
       error := some "Chunks and embeddings count mismatch" }, state)
  else
    let state := ensure_collection state user_id
    let chroma_ids := (List.range chunks.length).map uuidGen
    if addOk then
      ({ success := true, chroma_ids := chroma_ids, error := none },
        addToCollection state user_id (chroma_ids.map (fun cid => (cid, document_id))))
    else
      ({ success := false, chroma_ids := [],
         error := some "Failed to add chunks: chroma add raised" }, state)

/-- The dict returned by `RAGService.process_document`. -/
structure ProcessResult where
  success : Bool
  chunk_count : Nat
  total_tokens : Nat
  error : Option String
  deriving DecidableEq

/-- The persistent state `process_document` acts on: the `documents` and
`document_chunks` tables and the chroma store. -/
structure AppState where
  docs : List DocumentRec
  chunk_rows : List ChunkRowRec
  vectors : VectorStoreState

/-- The `document_chunks` rows of one document. -/
def chunkRowsFor (rows : List ChunkRowRec) (docId : Nat) : List ChunkRowRec :=
  rows.filter (fun r => r.document_id = docId)

/-- Number of vectors stored for one document across all collections. -/
def vectorsFor (v : VectorStoreState) (docId : Nat) : Nat :=
  (v.collections.map (fun c => (c.2.filter (fun e => e.2 = docId)).length)).sum

/-- The `DocumentChunk` rows built in step 6 (one per chunk, mirroring the
returned chroma handles; `chunk['chunk_index'] = i` was assigned right
after chunking). -/
def buildChunkRows (document_id : Nat) (chunks : List Chunk)
    (chroma_ids : List String) : List ChunkRowRec :=
  (chunks.zip chroma_ids).enum.map (fun p =>
    { document_id := document_id, chunk_index := p.1, content := p.2.1.content,
      token_count := p.2.1.token_count, chroma_id := p.2.2 })

/-- `RAGService.process_document(document_id)`.

External outcomes are explicit: `chunk_size`/`overlap` come from the
settings store; `extraction` is `DocumentExtractor.extract`'s answer;
`embedOutcome` is `EmbeddingService.get_embeddings_batch`'s answer;
`uuidGen`/`addOk` feed `VectorStore.add_chunks`; `commitOutcome` is the
step-6 database commit (`none` = committed, `some e` = raised `e`, in which
case the session rolls the pending row inserts and the ready transition
back and the `except` branch marks the document failed — the chroma
insertions of step 5 are left in place, `delete_chunks_by_ids` is never
called). -/
def RAGService.process_document (st : AppState) (document_id : Nat)
    (chunk_size overlap : Nat) (extraction : ExtractionResult)
    (embedOutcome : EmbeddingBatchResult) (uuidGen : Nat → String)
    (addOk : Bool) (commitOutcome : Option String) : ProcessResult × AppState :=
  match st.docs.find? (fun d => d.id = document_id) with
  | none =>
    ({ success := false, chunk_count := 0, total_tokens := 0,
       error := some "Document not found" }, st)
  | some document =>
    let st := { st with docs := updateDoc st.docs document_id mark_processing }
    match extraction.error with
    | some e =>
      ({ success := false, chunk_count := 0, total_tokens := 0, error := some e },
        { st with docs :=
            updateDoc st.docs document_id (fun d => mark_failed d ("Extraction failed: " ++ e)) })
    | none =>
      let text := extraction.text
      if pyStrip text = "" then
        ({ success := false, chunk_count := 0, total_tokens := 0,
           error := some "No text content in document" },
          { st with docs :=
              updateDoc st.docs document_id (fun d => mark_failed d "No text content extracted from document") })
      else
        let pages := extraction.pages
        let chunks := chunk_document text chunk_size overlap
          (if pages = [] then none else some pages)
        if chunks = [] then
          ({ success := false, chunk_count := 0, total_tokens := 0,
             error := some "No chunks created" },
            { st with docs :=
                updateDoc st.docs document_id (fun d => mark_failed d "Failed to create chunks from document") })
        else
          match embedOutcome.error with
          | some e =>
            ({ success := false, chunk_count := 0, total_tokens := 0, error := some e },
              { st with docs :=
                  updateDoc st.docs document_id (fun d => mark_failed d ("Embedding failed: " ++ e)) })
          | none =>
            let embeddings := embedOutcome.embeddings
            if embeddings.length ≠ chunks.length then
              ({ success := false, chunk_count := 0, total_tokens := 0,
                 error := some "Embedding count mismatch" },
                { st with docs :=
                    updateDoc st.docs document_id (fun d => mark_failed d "Embedding count mismatch") })
            else
              let stepFive := VectorStore.add_chunks st.vectors document.user_id
                chunks embeddings document_id uuidGen addOk
              let store_result := stepFive.1
              let vectors1 := stepFive.2
              if ¬ store_result.success then
                ({ success := false, chunk_count := 0, total_tokens := 0,
                   error := store_result.error },
                  { st with
                    docs :=
                      updateDoc st.docs document_id (fun d => mark_failed d ("Vector store failed: " ++ store_result.error.getD "")),
                    vectors := vectors1 })
              else
                let chroma_ids := store_result.chroma_ids
                let new_rows := buildChunkRows document_id chunks chroma_ids
                let total_tokens := (chunks.map (fun c => c.token_count)).sum
                match commitOutcome with
                | none =>
                  ({ success := true, chunk_count := chunks.length,
                     total_tokens := total_tokens, error := none },
                    { docs :=
                        updateDoc st.docs document_id (fun d => mark_ready d chunks.length total_tokens embedOutcome.model),
                      chunk_rows := st.chunk_rows ++ new_rows,
                      vectors := vectors1 })
                | some e =>
                  ({ success := false, chunk_count := 0, total_tokens := 0,
                     error := some e },
                    { docs := updateDoc st.docs document_id (fun d => mark_failed d e),
                      chunk_rows := st.chunk_rows,
                      vectors := vectors1 })

/-! ## C2: chat-turn resolve and user-message persistence

Lines 135-216 of the `chat` view (`app/routes/chat.py`): validate, resolve
the `Chat` from the supplied session handle — `Chat.query.filter_by(
session_id=session_id).first()`, with no owner filter and no ownership
check — and persist the user `Message` to the resolved chat before
streaming begins. -/

/-- A `chats` row (the fields the resolve path uses). -/
structure ChatRec where
  id : Nat
  session_id : String
  name : String
  user_id : Nat
  deriving DecidableEq

/-- A `messages` row (the fields the persist path uses). -/
structure MessageRow where
  chat_id : Nat
  role : String
  content : String
  deriving DecidableEq

/-- `chat` view, resolve-and-persist prefix.  `message_content` is the
stripped (and, when the sensitive filter is enabled, redacted) message
text; `next_chat_id` is the id the database would assign to a new chat and
`new_session_uuid` the generated `uuid4`.  Returns the error response, or
the resolved chat together with the updated `chats` and `messages`
tables. -/
def chat_resolve_and_persist_user (chats : List ChatRec) (messages : List MessageRow)
    (current_user_id : Nat) (session_id : Option String) (message_content : String)
    (has_attachments : Bool) (next_chat_id : Nat) (new_session_uuid : String) :
    Except (String × Nat) (ChatRec × List ChatRec × List MessageRow) :=
  if message_content = "" ∧ ¬ has_attachments then
    Except.error ("No message or attachments provided", 400)
  else
    let user_msg := fun (cid : Nat) =>
      ({ chat_id := cid, role := "user",
         content := if message_content = "" then "See attached files"
                    else message_content } : MessageRow)
    match session_id with
    | some sid =>
      match chats.find? (fun c => c.session_id = sid) with
      | none => Except.error ("Session not found", 404)
      | some chat => Except.ok (chat, chats, messages ++ [user_msg chat.id])
    | none =>
      let chat_name :=
        if message_content ≠ "" then
          pyJoin " " ((pySplitWs message_content).take 5)
        else "New Chat"
      let chat : ChatRec :=
        { id := next_chat_id, session_id := new_session_uuid,
          name := chat_name, user_id := current_user_id }
      Except.ok (chat, chats ++ [chat], messages ++ [user_msg chat.id])

/-! ## C3 / C4: provider adapter streaming

`AIService.get_response_stream` and the six provider adapters
`AIService._get_gemini/_openai/_anthropic/_grok/_lmstudio/_ollama_response_stream`
(`app/services/ai_service.py`).  The SSE wire framing (`data: <json>\n\n`)
is elided: events are modelled as tagged values; each adapter's upstream
iteration is an explicit outcome parameter (the delta texts it produced,
and whether it completed or raised, and where), and the resolved keys,
settings and attachment-derived guard bits are explicit inputs. -/

/-- An apostrophe, for building string constants of the source verbatim. -/
def apos : String := ⟨[Char.ofNat 39]⟩

/-- A chat message as passed to `get_response_stream` (attachments do not
affect the properties studied and are elided). -/
structure ChatMsg where
  role : String
  content : String
  deriving DecidableEq

/-- Token usage dict. -/
structure TokenUsage where
  input_tokens : Nat
  output_tokens : Nat
  total_tokens : Nat
  estimated : Bool
  deriving DecidableEq

/-- The three SSE event kinds the stream yields. -/
inductive SSEEvent where
  | content (text : String)
  | done (full_content : String) (usage : Option TokenUsage)
  | error (text : String)
  deriving DecidableEq

/-- `usage_metadata` carried by the last Gemini SDK chunk, when present. -/
structure UsageMetadata where
  prompt_token_count : Nat
  candidates_token_count : Nat
  total_token_count : Nat
  deriving DecidableEq

/-- Outcome of iterating `client.models.generate_content_stream(...)`: the
optional text of each SDK chunk, and either normal completion (with the
optional usage metadata of the last chunk) or an exception raised after
some prefix of the chunks was consumed (this also covers a failure of the
client construction itself, with an empty prefix). -/
inductive GeminiStreamOutcome where
  | ok (chunks : List (Option String)) (usage_metadata : Option UsageMetadata)
  | raised (chunksBefore : List (Option String)) (errMsg : String)

/-- Python truthiness of a chunk text (`if chunk.text:`). -/
def chunkText (t : Option String) : Option String :=
  match t with
  | some s => if s ≠ "" then some s else none
  | none => none

/-- The `content` events yielded for the consumed chunks. -/
def contentEvents (chunks : List (Option String)) : List SSEEvent :=
  chunks.filterMap (fun t => (chunkText t).map SSEEvent.content)

/-- The accumulated `full_content`. -/
def fullContentOf (chunks : List (Option String)) : String :=
  chunks.foldl (fun acc t => acc ++ ((chunkText t).getD "")) ""

/-- `TokenService.count_tokens` in its deterministic estimation mode is the
same `len // 4` estimate as the chunker uses (`count_tokens`); the
estimated-usage fallback of the Gemini stream builds on it. -/
def estimate_usage (messages : List ChatMsg) (full_content : String) : TokenUsage :=
  let output_tokens := count_tokens full_content
  let input_text := pyJoin " " (messages.map (fun m => m.content))
  let input_tokens := count_tokens input_text
  { input_tokens := input_tokens, output_tokens := output_tokens,
    total_tokens := input_tokens + output_tokens, estimated := true }

/-- Python `in` for strings. -/
def pyContains (s sub : String) : Bool := 0 ≤ pyFind s sub

/-- The error-message mapping of the Gemini stream `except` branch. -/
def gemini_error_message (e : String) : String :=
  if pyContains e "API_KEY_INVALID" || pyContains (pyLower e) "invalid_api_key" then
    "Invalid Gemini API key. Please check your API key in application settings."
  else if pyContains (pyLower e) "quota" then
    "Gemini API quota exceeded. Please check your API usage."
  else if pyContains (pyLower e) "timeout" then
    "Request to Gemini API timed out"
  else
    "Error communicating with Gemini API: " ++ e

/-- `AIService._get_gemini_response_stream(messages, user_id, upload_folder)`.
`api_key` is `_get_user_api_key("gemini", user_id)` (empty = not
configured); `outcome` the SDK iteration outcome. -/
def _get_gemini_response_stream (api_key : String) (messages : List ChatMsg)
    (outcome : GeminiStreamOutcome) : List SSEEvent :=
  if api_key = "" then
    [SSEEvent.error "Gemini API key not configured. Please add your API key in your application settings."]
  else
    match outcome with
    | GeminiStreamOutcome.ok chunks meta =>
      let full_content := fullContentOf chunks
      let usage :=
        match meta with
        | some m =>
          { input_tokens := m.prompt_token_count,
            output_tokens := m.candidates_token_count,
            total_tokens := m.total_token_count, estimated := false }
        | none => estimate_usage messages full_content
      contentEvents chunks ++ [SSEEvent.done full_content (some usage)]
    | GeminiStreamOutcome.raised chunks e =>
      contentEvents chunks ++ [SSEEvent.error (gemini_error_message e)]

/-- The RAG system-message body built by `get_response_stream` around the
retrieved context (the f-string of ai_service.py lines 1738-1744,
verbatim including its indentation). -/
def rag_system_content (rag_context : String) : String :=
  "You have access to the following document context that may be relevant to the user" ++ apos ++ "s questions.\n            Use this information to provide accurate, informed responses. If the context doesn" ++ apos ++ "t contain relevant information,\n            you can still answer based on your knowledge, but mention that the provided documents didn" ++ apos ++ "t contain specific information about that topic.\n\n            " ++ rag_context ++ "\n\n            Remember to cite the source documents when using information from them."

/-- The system-message injection prefix of `get_response_stream` (lines
1725-1747): the age-based safety prompt is prepended first, then the RAG
context message is prepended in front of it. -/
def inject_context_messages (messages : List ChatMsg)
    (rag_context age_system_prompt : Option String) : List ChatMsg :=
  let messages :=
    match age_system_prompt with
    | some p => if p ≠ "" then { role := "system", content := p } :: messages
                else messages
    | none => messages
  match rag_context with
  | some c => if c ≠ "" then { role := "system", content := rag_system_content c } :: messages
              else messages
  | none => messages

/-- A `requests` exception as the adapters distinguish it in their `except`
ladders: an `HTTPError` (with the response status and the exception text),
a `ConnectionError`, a `Timeout`, or any other exception (with its text). -/
inductive ReqException where
  | httpError (status : Nat) (msg : String)
  | connectionError
  | timeout
  | otherExc (msg : String)

/-- A captured `usage_data` dict before validation (`estimated` is `False`
at capture time in every adapter). -/
structure RawUsage where
  input_tokens : Nat
  output_tokens : Nat
  total_tokens : Nat

/-- The token-count validation block shared by the OpenAI, Anthropic and
xAI streams: with usage captured and a non-empty `full_content`, an
`output_tokens` above `max(len(full_content) * 2, 50)` is replaced by the
local estimate (`estimated: True`); otherwise the captured counts pass
through with `estimated: False`; with no usage captured the done event
carries no usage. -/
def validated_usage (usage_data : Option RawUsage) (full_content : String) :
    Option TokenUsage :=
  match usage_data with
  | none => none
  | some u =>
    if full_content ≠ "" ∧ max (full_content.length * 2) 50 < u.output_tokens then
      some { input_tokens := u.input_tokens,
             output_tokens := count_tokens full_content,
             total_tokens := u.input_tokens + count_tokens full_content,
             estimated := true }
    else
      some { input_tokens := u.input_tokens, output_tokens := u.output_tokens,
             total_tokens := u.total_tokens, estimated := false }

/-- Outcome of the `try` body of an adapter that yields every delta text it
parses, empty or not (Anthropic, xAI, LM Studio, Ollama): the delta texts,
and either normal completion with the captured usage, or an exception
raised after a prefix of them (an empty prefix covers a failure of
`requests.post` or `raise_for_status` itself). -/
inductive HttpStreamOutcome where
  | ok (chunks : List String) (usage_data : Option RawUsage)
  | raised (chunksBefore : List String) (exc : ReqException)

/-- Outcome of the OpenAI `try` body, whose loop yields a delta only when
its content is truthy (`if content:`). -/
inductive OpenAIStreamOutcome where
  | ok (chunks : List (Option String)) (usage_data : Option RawUsage)
  | raised (chunksBefore : List (Option String)) (exc : ReqException)

/-- The `content` events of an adapter that yields every parsed delta. -/
def contentEventsAll (chunks : List String) : List SSEEvent :=
  chunks.map SSEEvent.content

/-- The accumulated `full_content` of such an adapter. -/
def concatContent (chunks : List String) : String :=
  chunks.foldl (fun acc t => acc ++ t) ""

/-- The `except` ladder of the OpenAI stream. -/
def openai_error_message : ReqException → String
  | ReqException.httpError status m =>
    "OpenAI API HTTP Error " ++ toString status ++ ": " ++ m
  | ReqException.connectionError => "Connection Error to OpenAI API"
  | ReqException.timeout => "Request to OpenAI API timed out"
  | ReqException.otherExc m => "Error communicating with OpenAI API: " ++ m

/-- `AIService._get_openai_response_stream(messages, model_name, user_id,
upload_folder)`.  `api_key` is `_get_user_api_key("openai", user_id)`;
`model_name` the resolved model id; `has_images` whether an attachment
produced an image part; the vision check requires the lowered model name
to contain `gpt-4`, `gpt-5` or `vision`. -/
def _get_openai_response_stream (api_key model_name : String) (has_images : Bool)
    (outcome : OpenAIStreamOutcome) : List SSEEvent :=
  if api_key = "" then
    [SSEEvent.error "OpenAI API key not configured. Please add your API key in your application settings."]
  else if has_images &&
      !(pyContains (pyLower model_name) "gpt-4" ||
        pyContains (pyLower model_name) "gpt-5" ||
        pyContains (pyLower model_name) "vision") then
    [SSEEvent.error ("Model " ++ model_name ++ " does not support image inputs. Please use a vision-capable model.")]
  else
    match outcome with
    | OpenAIStreamOutcome.ok chunks usage_data =>
      let full_content := fullContentOf chunks
      contentEvents chunks ++
        [SSEEvent.done full_content (validated_usage usage_data full_content)]
    | OpenAIStreamOutcome.raised chunks exc =>
      contentEvents chunks ++ [SSEEvent.error (openai_error_message exc)]

/-- The `except` ladder of the Anthropic stream. -/
def anthropic_error_message : ReqException → String
  | ReqException.httpError status m =>
    "Anthropic API HTTP Error " ++ toString status ++ ": " ++ m
  | ReqException.connectionError => "Connection Error to Anthropic API"
  | ReqException.timeout => "Request to Anthropic API timed out"
  | ReqException.otherExc m => "Error communicating with Anthropic API: " ++ m

/-- `AIService._get_anthropic_response_stream(...)`: key guard, then every
`text_delta` text is yielded as a `content` event (no truthiness check),
then the validated-usage done event; an exception maps through the
`except` ladder. -/
def _get_anthropic_response_stream (api_key : String)
    (outcome : HttpStreamOutcome) : List SSEEvent :=
  if api_key = "" then
    [SSEEvent.error "Anthropic API key not configured. Please add your API key in your application settings."]
  else
    match outcome with
    | HttpStreamOutcome.ok chunks usage_data =>
      let full_content := concatContent chunks
      contentEventsAll chunks ++
        [SSEEvent.done full_content (validated_usage usage_data full_content)]
    | HttpStreamOutcome.raised chunks exc =>
      contentEventsAll chunks ++ [SSEEvent.error (anthropic_error_message exc)]

/-- The `except` ladder of the xAI stream. -/
def xai_error_message : ReqException → String
  | ReqException.httpError status m =>
    "xAI API HTTP Error " ++ toString status ++ ": " ++ m
  | ReqException.connectionError => "Connection Error to xAI API"
  | ReqException.timeout => "Request to xAI API timed out"
  | ReqException.otherExc m => "Error communicating with xAI API: " ++ m

/-- `AIService._get_grok_response_stream(...)`: key guard; every present
delta content is yielded (no truthiness check); validated-usage done
event; `except` ladder. -/
def _get_grok_response_stream (api_key : String)
    (outcome : HttpStreamOutcome) : List SSEEvent :=
  if api_key = "" then
    [SSEEvent.error "xAI API key not configured. Please add your API key in your application settings."]
  else
    match outcome with
    | HttpStreamOutcome.ok chunks usage_data =>
      let full_content := concatContent chunks
      contentEventsAll chunks ++
        [SSEEvent.done full_content (validated_usage usage_data full_content)]
    | HttpStreamOutcome.raised chunks exc =>
      contentEventsAll chunks ++ [SSEEvent.error (xai_error_message exc)]

/-- The `except` ladder of the LM Studio stream (its `ConnectionError`
branch names the configured URL; its HTTP branch prints the exception
text, not the status). -/
def lmstudio_error_message (lm_studio_url : String) : ReqException → String
  | ReqException.connectionError =>
    "Connection Error to LM Studio: Please ensure LM Studio is running at " ++ lm_studio_url
  | ReqException.httpError _ m => "LM Studio HTTP Error: " ++ m
  | ReqException.timeout => "Request to LM Studio timed out"
  | ReqException.otherExc m => "Error communicating with LM Studio: " ++ m

/-- `AIService._get_lmstudio_response_stream(...)`: the vision guard blocks
image attachments unless the user toggle is on; every present delta
content is yielded; the done event carries the server usage when provided
(`estimated: False`) and the local estimate otherwise; `except` ladder. -/
def _get_lmstudio_response_stream (lm_studio_url : String) (messages : List ChatMsg)
    (has_images vision_enabled : Bool) (outcome : HttpStreamOutcome) :
    List SSEEvent :=
  if has_images && !vision_enabled then
    [SSEEvent.error "Enable vision support using the eye icon button next to attachments if using a vision-capable model."]
  else
    match outcome with
    | HttpStreamOutcome.ok chunks usage_data =>
      let full_content := concatContent chunks
      let usage :=
        match usage_data with
        | some u =>
          { input_tokens := u.input_tokens, output_tokens := u.output_tokens,
            total_tokens := u.total_tokens, estimated := false }
        | none => estimate_usage messages full_content
      contentEventsAll chunks ++ [SSEEvent.done full_content (some usage)]
    | HttpStreamOutcome.raised chunks exc =>
      contentEventsAll chunks ++
        [SSEEvent.error (lmstudio_error_message lm_studio_url exc)]

/-- The `except` ladder of the Ollama stream. -/
def ollama_error_message (ollama_url : String) : ReqException → String
  | ReqException.connectionError =>
    "Connection Error to Ollama: Please ensure Ollama is running at " ++ ollama_url
  | ReqException.httpError _ m => "Ollama HTTP Error: " ++ m
  | ReqException.timeout => "Request to Ollama timed out"
  | ReqException.otherExc m => "Error communicating with Ollama: " ++ m

/-- `AIService._get_ollama_response_stream(...)`: vision guard; the message
content of every parsed line is yielded; the done event carries the
final-chunk usage when Ollama provided counts and the local estimate
otherwise; `except` ladder. -/
def _get_ollama_response_stream (ollama_url : String) (messages : List ChatMsg)
    (has_images vision_enabled : Bool) (outcome : HttpStreamOutcome) :
    List SSEEvent :=
  if has_images && !vision_enabled then
    [SSEEvent.error "Enable vision support using the eye icon button next to attachments if using a vision-capable model."]
  else
    match outcome with
    | HttpStreamOutcome.ok chunks usage_data =>
      let full_content := concatContent chunks
      let usage :=
        match usage_data with
        | some u =>
          { input_tokens := u.input_tokens, output_tokens := u.output_tokens,
            total_tokens := u.total_tokens, estimated := false }
        | none => estimate_usage messages full_content
      contentEventsAll chunks ++ [SSEEvent.done full_content (some usage)]
    | HttpStreamOutcome.raised chunks exc =>
      contentEventsAll chunks ++
        [SSEEvent.error (ollama_error_message ollama_url exc)]

/-- The external data the six dispatch branches consume: each adapter's
resolved key/settings, guard bits and iteration outcome, plus
`preamble_exc` — an exception raised inside a selected adapter before its
first yield (key/settings resolution, attachment processing), which
escapes the sub-generator and is caught by the outer `except` of
`get_response_stream` as a single error event with `str(e)`. -/
structure ProviderStreamData where
  gemini_api_key : String
  gemini_outcome : GeminiStreamOutcome
  openai_api_key : String
  openai_model_name : String
  openai_has_images : Bool
  openai_outcome : OpenAIStreamOutcome
  anthropic_api_key : String
  anthropic_outcome : HttpStreamOutcome
  xai_api_key : String
  xai_outcome : HttpStreamOutcome
  lm_studio_url : String
  lmstudio_has_images : Bool
  lmstudio_outcome : HttpStreamOutcome
  ollama_url : String
  ollama_has_images : Bool
  ollama_outcome : HttpStreamOutcome
  local_vision_enabled : Bool
  preamble_exc : Option String

/-- The outer `try`/`except` around a selected adapter: a preamble
exception replaces the adapter events by a single error event. -/
def with_preamble (exc : Option String) (events : List SSEEvent) : List SSEEvent :=
  match exc with
  | some e => [SSEEvent.error e]
  | none => events

/-- `AIService.get_response_stream(messages, provider, ...)` (lines
1697-1766): normalise the provider label (`lower`, `lm_studio` →
`lmstudio`), inject the safety and RAG system messages, dispatch to the
provider adapter inside the outer `try`/`except`; an unknown provider
yields a single error event. -/
def get_response_stream (messages : List ChatMsg) (provider : String)
    (rag_context age_system_prompt : Option String)
    (d : ProviderStreamData) : List SSEEvent :=
  let provider := pyLower provider
  let provider := if provider = "lm_studio" then "lmstudio" else provider
  let messages := inject_context_messages messages rag_context age_system_prompt
  if provider = "gemini" then
    with_preamble d.preamble_exc
      (_get_gemini_response_stream d.gemini_api_key messages d.gemini_outcome)
  else if provider = "openai" then
    with_preamble d.preamble_exc
      (_get_openai_response_stream d.openai_api_key d.openai_model_name
        d.openai_has_images d.openai_outcome)
  else if provider = "anthropic" then
    with_preamble d.preamble_exc
      (_get_anthropic_response_stream d.anthropic_api_key d.anthropic_outcome)
  else if provider = "xai" then
    with_preamble d.preamble_exc
      (_get_grok_response_stream d.xai_api_key d.xai_outcome)
  else if provider = "lmstudio" then
    with_preamble d.preamble_exc
      (_get_lmstudio_response_stream d.lm_studio_url messages
        d.lmstudio_has_images d.local_vision_enabled d.lmstudio_outcome)
  else if provider = "ollama" then
    with_preamble d.preamble_exc
      (_get_ollama_response_stream d.ollama_url messages
        d.ollama_has_images d.local_vision_enabled d.ollama_outcome)
  else
    [SSEEvent.error ("Unknown provider: " ++ provider)]

/-- A terminal stream event (`done` or `error`). -/
def isTerminal : SSEEvent → Bool
  | SSEEvent.content _ => false
  | SSEEvent.done _ _ => true
  | SSEEvent.error _ => true

/-! ## C6: sensitive-information redactor

`SensitiveInfoFilter` (`app/services/sensitive_info_filter.py`).  The
patterns are Python regexes applied with `re.IGNORECASE | re.MULTILINE`;
they are embedded as an AST (`RE`) interpreted by a backtracking matcher
with Python `re` semantics: leftmost match, greedy/lazy repetition with
backtracking, alternation priority, capture groups, word boundaries and
negative lookahead.  `filter_text` reproduces the source loop exactly:
`re.finditer` takes a snapshot of the text as the pattern starts, then for
each snapshot match a plain-string pattern runs `str.replace` (all
occurrences of the matched text) on the current text, while a callable
pattern runs `re.sub` (all current matches) on the current text. -/

/-- The apostrophe character (for the `["\']` classes). -/
def aposC : Char := Char.ofNat 39

/-- Regex AST: the constructs the redactor patterns use.  `lit` matches its
string case-insensitively (IGNORECASE); classes are predicates already
closed under case. -/
inductive RE where
  | eps
  | lit (s : String)
  | cls (p : Char → Bool)
  | cat (a b : RE)
  | alt (a b : RE)
  | opt (a : RE)
  | rep (a : RE) (lo : Nat) (hi : Option Nat)
  | repLazy (a : RE)
  | group (idx : Nat) (a : RE)
  | wordB
  | negAhead (a : RE)

/-- Capture records: (group index, start, stop), most recent first. -/
def Caps : Type := List (Nat × Nat × Nat)

/-- Character at a position. -/
def charAt (cs : Array Char) (i : Nat) : Option Char :=
  if h : i < cs.size then some (cs.get ⟨i, h⟩) else none

/-- Regex word character `\w` (ASCII). -/
def isWordChar (c : Char) : Bool := c.isAlphanum || c = '_'

/-- `\b`: a word/non-word transition (string ends count as non-word). -/
def wordBoundary (cs : Array Char) (pos : Nat) : Bool :=
  let before := if pos = 0 then false
                else match charAt cs (pos - 1) with
                     | some c => isWordChar c
                     | none => false
  let after := match charAt cs pos with
               | some c => isWordChar c
               | none => false
  before != after

/-- Case-insensitive literal match at a position. -/
def litMatches (cs : Array Char) : Nat → List Char → Bool
  | _, [] => true
  | pos, c :: rest =>
    match charAt cs pos with
    | some d => c.toLower = d.toLower && litMatches cs (pos + 1) rest
    | none => false

/-- The backtracking matcher in continuation-passing style: `k` receives
the position and captures after `re`; returning `none` from `k` makes the
matcher backtrack, as the Python engine does.  `fuel` bounds the recursion
depth (every repetition body must consume input, as all the embedded
patterns do, so a fuel linear in the input suffices). -/
def reMatch (cs : Array Char) : Nat → RE → Nat → Caps →
    (Nat → Caps → Option (Nat × Caps)) → Option (Nat × Caps)
  | 0, _, _, _, _ => none
  | fuel + 1, re, pos, caps, k =>
    match re with
    | RE.eps => k pos caps
    | RE.lit s =>
      if litMatches cs pos s.data then k (pos + s.length) caps else none
    | RE.cls p =>
      match charAt cs pos with
      | some d => if p d then k (pos + 1) caps else none
      | none => none
    | RE.cat a b => reMatch cs fuel a pos caps (fun p c => reMatch cs fuel b p c k)
    | RE.alt a b =>
      match reMatch cs fuel a pos caps k with
      | some r => some r
      | none => reMatch cs fuel b pos caps k
    | RE.opt a =>
      match reMatch cs fuel a pos caps k with
      | some r => some r
      | none => k pos caps
    | RE.rep a lo hi =>
      match lo with
      | l + 1 =>
        reMatch cs fuel a pos caps
          (fun p c => reMatch cs fuel (RE.rep a l (hi.map (fun h => h - 1))) p c k)
      | 0 =>
        match hi with
        | some 0 => k pos caps
        | _ =>
          match reMatch cs fuel a pos caps (fun p c =>
              if p = pos then none
              else reMatch cs fuel (RE.rep a 0 (hi.map (fun h => h - 1))) p c k) with
          | some r => some r
          | none => k pos caps
    | RE.repLazy a =>
      match k pos caps with
      | some r => some r
      | none =>
        reMatch cs fuel a pos caps (fun p c =>
          if p = pos then none else reMatch cs fuel (RE.repLazy a) p c k)
    | RE.group i a =>
      reMatch cs fuel a pos caps (fun p c => k p ((i, pos, p) :: c))
    | RE.wordB => if wordBoundary cs pos then k pos caps else none
    | RE.negAhead a =>
      match reMatch cs fuel a pos caps (fun p c => some (p, c)) with
      | some _ => none
      | none => k pos caps

/-- Fuel for a whole-match attempt. -/
def matchFuel (cs : Array Char) : Nat := (cs.size + 2) * 100

/-- Attempt a match anchored at `pos`; returns the end position and
captures of the leftmost-priority match. -/
def reSearchAt (cs : Array Char) (re : RE) (pos : Nat) : Option (Nat × Caps) :=
  reMatch cs (matchFuel cs) re pos [] (fun p c => some (p, c))

/-- One `re` match: span and captures. -/
structure REMatch where
  mstart : Nat
  mend : Nat
  caps : Caps

/-- `re.search` scan: try each start position left to right. -/
def searchGo (cs : Array Char) (re : RE) : Nat → Nat → Option REMatch
  | 0, _ => none
  | fuel + 1, start =>
    if cs.size < start then none
    else
      match reSearchAt cs re start with
      | some pc => some { mstart := start, mend := pc.1, caps := pc.2 }
      | none => searchGo cs re fuel (start + 1)

/-- `re.search(pattern, text)`. -/
def reSearch (re : RE) (text : String) : Option REMatch :=
  let cs := text.data.toArray
  searchGo cs re (cs.size + 1) 0

/-- `re.finditer` scan: leftmost non-overlapping matches; an empty match
advances by one. -/
def finditerGo (cs : Array Char) (re : RE) : Nat → Nat → List REMatch
  | 0, _ => []
  | fuel + 1, start =>
    match searchGo cs re (cs.size + 1 - start) start with
    | none => []
    | some m =>
      m :: finditerGo cs re fuel (if m.mstart < m.mend then m.mend else m.mend + 1)

/-- `re.finditer(pattern, text)` as a list (the first step is the same
scan as `re.search`). -/
def finditer (re : RE) (text : String) : List REMatch :=
  let cs := text.data.toArray
  match searchGo cs re (cs.size + 1) 0 with
  | none => []
  | some m =>
    m :: finditerGo cs re (cs.size + 1) (if m.mstart < m.mend then m.mend else m.mend + 1)

/-- The text of the span `[s, e)`. -/
def sliceStr (cs : Array Char) (s e : Nat) : String :=
  ⟨(cs.toList.drop s).take (e - s)⟩

/-- `match.group(i)` (empty string for a group that did not participate;
every group the replacements reference always participates). -/
def groupStr (cs : Array Char) (caps : Caps) (i : Nat) : String :=
  match caps.find? (fun t => t.1 = i) with
  | some t => sliceStr cs t.2.1 t.2.2
  | none => ""

/-- A replacement: a plain string, or a function of the groups (the
Python lambdas over the match object). -/
inductive Repl where
  | str (s : String)
  | fn (f : (Nat → String) → String)

/-- Segment splicing of `re.sub` with a replacement function. -/
def spliceGo (cs : Array Char) (f : (Nat → String) → String) :
    List REMatch → Nat → List Char
  | [], pos => cs.toList.drop pos
  | m :: rest, pos =>
    ((cs.toList.drop pos).take (m.mstart - pos)) ++ (f (groupStr cs m.caps)).data ++
      spliceGo cs f rest m.mend

/-- `re.sub(pattern, f, text)` with a callable replacement. -/
def reSubFn (re : RE) (f : (Nat → String) → String) (text : String) : String :=
  let cs := text.data.toArray
  ⟨spliceGo cs f (finditer re text) 0⟩

/-- One named entry of `SensitiveInfoFilter.PATTERNS`. -/
structure NamedPattern where
  name : String
  re : RE
  repl : Repl

/-- The body of the `for pattern_name, ... in PATTERNS.items()` loop for
one pattern: snapshot the matches, then per snapshot match either
`str.replace` the matched text (plain replacement) or `re.sub` the whole
current text (callable replacement). -/
def applyPattern (p : NamedPattern) (text : String) : String :=
  let cs := text.data.toArray
  let ms := finditer p.re text
  ms.foldl (fun t m =>
    match p.repl with
    | Repl.str s => pyReplace t (sliceStr cs m.mstart m.mend) s
    | Repl.fn f => reSubFn p.re f t) text

/-- Right-nested concatenation. -/
def reSeq (l : List RE) : RE := l.foldr RE.cat RE.eps

/-- Alternation with Python priority (leftmost alternative first). -/
def reAlts : List RE → RE
  | [] => RE.eps
  | [r] => r
  | r :: rest => RE.alt r (reAlts rest)

/-- `a*`. -/
def reStar (a : RE) : RE := RE.rep a 0 none

/-- `a+`. -/
def rePlus (a : RE) : RE := RE.rep a 1 none

/-- `a{n}`. -/
def reN (a : RE) (n : Nat) : RE := RE.rep a n (some n)

/-- `a{n,}`. -/
def reAtLeast (a : RE) (n : Nat) : RE := RE.rep a n none

/-- `[a-zA-Z0-9\-_]`. -/
def keyChar (c : Char) : Bool := c.isAlphanum || c = '-' || c = '_'

/-- `\d`. -/
def digitC (c : Char) : Bool := c.isDigit

/-- `[a-zA-Z0-9]`, and also `[0-9A-Z]` under IGNORECASE. -/
def alnumC (c : Char) : Bool := c.isAlphanum

/-- `[a-zA-Z0-9/+=]`. -/
def awsSecretChar (c : Char) : Bool := c.isAlphanum || c = '/' || c = '+' || c = '='

/-- `[a-zA-Z0-9\-_\.]`. -/
def bearerChar (c : Char) : Bool := keyChar c || c = '.'

/-- `[a-zA-Z0-9\-_=]`. -/
def jwtChar (c : Char) : Bool := keyChar c || c = '='

/-- `[\s\S]`. -/
def anyChar (_ : Char) : Bool := true

/-- `[^:]`. -/
def notColon (c : Char) : Bool := c ≠ ':'

/-- `[^@]`. -/
def notAt (c : Char) : Bool := c ≠ '@'

/-- `[^\s]`. -/
def notSpace (c : Char) : Bool := ¬ pyIsSpace c

/-- `[^@\s]`. -/
def notAtSpace (c : Char) : Bool := c ≠ '@' && notSpace c

/-- `["\']`. -/
def quoteChar (c : Char) : Bool := c = '"' || c = aposC

/-- `[^\s"\']`. -/
def notSpaceQuote (c : Char) : Bool := notSpace c && ¬ quoteChar c

/-- `[a-zA-Z0-9._-]`. -/
def urlHostChar (c : Char) : Bool := c.isAlphanum || c = '.' || c = '_' || c = '-'

/-- `[A-Z_]` under IGNORECASE. -/
def envNameChar (c : Char) : Bool := c.isAlpha || c = '_'

/-- `[a-zA-Z0-9\-_/+=]`. -/
def envValChar (c : Char) : Bool := keyChar c || c = '/' || c = '+' || c = '='

/-- `[3-6]`. -/
def digit36 (c : Char) : Bool := '3' ≤ c && c ≤ '6'

/-- `[psro]` under IGNORECASE. -/
def ghKindChar (c : Char) : Bool :=
  c.toLower = 'p' || c.toLower = 's' || c.toLower = 'r' || c.toLower = 'o'

/-- `\s`. -/
def spaceC (c : Char) : Bool := pyIsSpace c

/-- `[:=]`. -/
def colonEq (c : Char) : Bool := c = ':' || c = '='

/-- `\s*`. -/
def wsStar : RE := reStar (RE.cls spaceC)

/-- `\s+`. -/
def wsPlus : RE := rePlus (RE.cls spaceC)

/-- `["\']?`. -/
def optQuote : RE := RE.opt (RE.cls quoteChar)

/-- `(?:RSA |EC |DSA |ED25519 |OPENSSH |ENCRYPTED )?` of the PEM pattern. -/
def pemKindOpt : RE :=
  RE.opt (reAlts [RE.lit "RSA ", RE.lit "EC ", RE.lit "DSA ", RE.lit "ED25519 ",
                  RE.lit "OPENSSH ", RE.lit "ENCRYPTED "])

/-- `SensitiveInfoFilter.PATTERNS`, in source (dict insertion) order; each
entry is the regex and its replacement, transcribed pattern by pattern. -/
def PATTERNS : List NamedPattern := [
  { name := "anthropic_key"
    re := reSeq [RE.wordB,
      RE.group 1 (reSeq [RE.lit "sk-ant-",
        RE.opt (reSeq [RE.lit "api", rePlus (RE.cls digitC), RE.lit "-"]),
        reAtLeast (RE.cls keyChar) 20]),
      RE.wordB]
    repl := Repl.str "[ANTHROPIC_KEY_REDACTED]" },
  { name := "openai_key"
    re := reSeq [RE.wordB,
      RE.group 1 (reSeq [RE.lit "sk-", RE.negAhead (RE.lit "ant-"),
        RE.opt (RE.alt (RE.lit "proj-") (RE.lit "svcacct-")),
        reAtLeast (RE.cls keyChar) 20]),
      RE.wordB]
    repl := Repl.str "[OPENAI_KEY_REDACTED]" },
  { name := "google_api_key"
    re := reSeq [RE.wordB,
      RE.group 1 (reSeq [RE.lit "AIza", reN (RE.cls keyChar) 35]),
      RE.wordB]
    repl := Repl.str "[GOOGLE_KEY_REDACTED]" },
  { name := "aws_access_key"
    re := reSeq [RE.wordB,
      RE.group 1 (reSeq [RE.lit "AKIA", reN (RE.cls alnumC) 16]),
      RE.wordB]
    repl := Repl.str "[AWS_ACCESS_KEY_REDACTED]" },
  { name := "aws_secret_key"
    re := reSeq [
      RE.group 1 (reSeq [RE.lit "aws_secret_access_key", optQuote, wsStar,
        RE.cls colonEq, wsStar, optQuote]),
      RE.group 2 (reN (RE.cls awsSecretChar) 40),
      RE.group 3 optQuote]
    repl := Repl.fn (fun g => g 1 ++ "[AWS_SECRET_REDACTED]" ++ g 3) },
  { name := "github_token"
    re := reSeq [RE.wordB,
      RE.group 1 (reSeq [RE.lit "gh", RE.cls ghKindChar, RE.lit "_",
        reAtLeast (RE.cls alnumC) 36]),
      RE.wordB]
    repl := Repl.str "[GITHUB_TOKEN_REDACTED]" },
  { name := "xai_key"
    re := reSeq [RE.wordB,
      RE.group 1 (reSeq [RE.lit "xai-", reAtLeast (RE.cls keyChar) 20]),
      RE.wordB]
    repl := Repl.str "[XAI_KEY_REDACTED]" },
  { name := "generic_api_key"
    re := reSeq [
      RE.group 1 (reSeq [RE.lit "api", RE.opt (RE.cls (fun c => c = '_' || c = '-')),
        RE.lit "key", wsStar, RE.cls colonEq, wsStar, optQuote]),
      RE.group 2 (reAtLeast (RE.cls keyChar) 20),
      RE.group 3 optQuote]
    repl := Repl.fn (fun g => g 1 ++ "[API_KEY_REDACTED]" ++ g 3) },
  { name := "bearer_token"
    re := reSeq [
      RE.group 1 (reSeq [RE.wordB, RE.cls (fun c => c = 'B' || c = 'b'),
        RE.lit "earer", wsPlus]),
      RE.group 2 (reAtLeast (RE.cls bearerChar) 20),
      RE.wordB]
    repl := Repl.fn (fun g => g 1 ++ "[TOKEN_REDACTED]") },
  { name := "jwt_token"
    re := reSeq [RE.wordB, RE.lit "eyJ", rePlus (RE.cls jwtChar),
      RE.lit ".", RE.lit "eyJ", rePlus (RE.cls jwtChar),
      RE.lit ".", rePlus (RE.cls jwtChar), RE.wordB]
    repl := Repl.str "[JWT_REDACTED]" },
  { name := "private_key"
    re := reSeq [RE.lit "-----BEGIN ", pemKindOpt, RE.lit "PRIVATE KEY-----",
      RE.repLazy (RE.cls anyChar),
      RE.lit "-----END ", pemKindOpt, RE.lit "PRIVATE KEY-----"]
    repl := Repl.str "[PRIVATE_KEY_REDACTED]" },
  { name := "db_connection"
    re := reSeq [
      RE.group 1 (reSeq [
        reAlts [reSeq [RE.lit "postgres", RE.opt (RE.lit "ql")],
                RE.lit "mysql", RE.lit "mariadb",
                reSeq [RE.lit "mongodb", RE.opt (RE.lit "+srv")],
                RE.lit "redis", RE.lit "mssql", RE.lit "sqlserver"],
        RE.lit "://", rePlus (RE.cls notColon), RE.lit ":"]),
      RE.group 2 (rePlus (RE.cls notAt)),
      RE.group 3 (reSeq [RE.lit "@", rePlus (RE.cls notSpace)])]
    repl := Repl.fn (fun g => g 1 ++ "[PASSWORD_REDACTED]" ++ g 3) },
  { name := "password_assignment"
    re := reSeq [
      RE.group 1 (reSeq [reAlts [RE.lit "password", RE.lit "passwd", RE.lit "pwd"],
        wsStar, RE.cls colonEq, wsStar, optQuote]),
      RE.group 2 (reAtLeast (RE.cls notSpaceQuote) 6),
      RE.group 3 optQuote]
    repl := Repl.fn (fun g => g 1 ++ "[PASSWORD_REDACTED]" ++ g 3) },
  { name := "password_phrase"
    re := reSeq [
      RE.group 1 (reSeq [RE.opt (RE.alt (RE.lit "my ") (RE.lit "the ")),
        RE.lit "password is", wsPlus]),
      RE.group 2 (reAtLeast (RE.cls notSpace) 6)]
    repl := Repl.fn (fun g => g 1 ++ "[PASSWORD_REDACTED]") },
  { name := "credit_card"
    re := reSeq [RE.wordB,
      RE.group 1 (reSeq [RE.cls digit36, reN (RE.cls digitC) 3,
        RE.opt (RE.cls (fun c => c = '-' || pyIsSpace c)), reN (RE.cls digitC) 4,
        RE.opt (RE.cls (fun c => c = '-' || pyIsSpace c)), reN (RE.cls digitC) 4,
        RE.opt (RE.cls (fun c => c = '-' || pyIsSpace c)), reN (RE.cls digitC) 4]),
      RE.wordB]
    repl := Repl.str "[CARD_REDACTED]" },
  { name := "ssn"
    re := reSeq [RE.wordB,
      RE.group 1 (reSeq [reN (RE.cls digitC) 3,
        RE.opt (RE.cls (fun c => c = '-' || pyIsSpace c)), reN (RE.cls digitC) 2,
        RE.opt (RE.cls (fun c => c = '-' || pyIsSpace c)), reN (RE.cls digitC) 4]),
      RE.wordB]
    repl := Repl.str "[SSN_REDACTED]" },
  { name := "sa_id_number"
    re := reSeq [
      RE.group 1 (reSeq [
        reAlts [reSeq [RE.lit "identity", wsStar, RE.alt (RE.lit "number") (RE.lit "no")],
                reSeq [RE.lit "id", wsStar, RE.alt (RE.lit "number") (RE.lit "no")]],
        wsStar, RE.lit ":", wsStar]),
      RE.group 2 (reN (RE.cls digitC) 13),
      RE.wordB]
    repl := Repl.fn (fun g => g 1 ++ "[ID_REDACTED]") },
  { name := "url_with_password"
    re := reSeq [
      RE.group 1 (reSeq [RE.lit "http", RE.opt (RE.lit "s"), RE.lit "://",
        rePlus (RE.cls urlHostChar), RE.lit ":"]),
      RE.group 2 (rePlus (RE.cls notAtSpace)),
      RE.group 3 (reSeq [RE.lit "@", rePlus (RE.cls notSpace)])]
    repl := Repl.fn (fun g => g 1 ++ "[PASSWORD_REDACTED]" ++ g 3) },
  { name := "secret_assignment"
    re := reSeq [
      RE.group 1 (reSeq [
        reAlts [RE.lit "secret", RE.lit "client_secret", RE.lit "app_secret",
                RE.lit "api_secret"],
        wsStar, RE.cls colonEq, wsStar, RE.cls quoteChar]),
      RE.group 2 (reAtLeast (RE.cls keyChar) 16),
      RE.group 3 (RE.cls quoteChar)]
    repl := Repl.fn (fun g => g 1 ++ "[SECRET_REDACTED]" ++ g 3) },
  { name := "env_secret"
    re := reSeq [
      RE.group 1 (reSeq [reStar (RE.cls envNameChar),
        reAlts [RE.lit "SECRET", RE.lit "TOKEN", RE.lit "PASSWORD", RE.lit "API_KEY"],
        reStar (RE.cls envNameChar), wsStar, RE.lit "=", wsStar, optQuote]),
      RE.group 2 (reAtLeast (RE.cls envValChar) 16),
      RE.group 3 optQuote]
    repl := Repl.fn (fun g => g 1 ++ "[REDACTED]" ++ g 3) }]

/-- `SensitiveInfoFilter.filter_text(text)` (the filtered text; the
`detected_patterns` list is only populated in verbose mode). -/
def filter_text (text : String) : String :=
  PATTERNS.foldl (fun t p => applyPattern p t) text

/-- `SensitiveInfoFilter.filter_message(message_content)`. -/
def filter_message (message_content : String) : String :=
  filter_text message_content

/-- `SensitiveInfoFilter.has_sensitive_info(text)`: `re.search` per
pattern. -/
def has_sensitive_info (text : String) : Bool :=
  PATTERNS.any (fun p => (reSearch p.re text).isSome)

/-! ## Concrete inputs used by the final theorems -/

/-- A text whose redaction is not idempotent: the standalone SSN is matched
and `str.replace` also rewrites its embedded occurrence, which exposes
`999-88-7777` at a fresh word boundary for a second pass. -/
def ssnChainText : String := "123-45-6789 999-88-7777123-45-6789"

/-- A single whitespace-free 100-character word: 25 estimated tokens. -/
def oversizedWordText : String := ⟨List.replicate 100 'y'⟩

/-- 67 three-character sentences: every sentence estimates to 0 tokens while
their join (267 characters) estimates to 66. -/
def shortSentencesText : String := pyJoin " " (List.replicate 67 "Ab.")

/-- A pending document owned by user 7. -/
def pipelineDoc : DocumentRec :=
  { id := 1, user_id := 7, status := "pending", error_message := none,
    chunk_count := 0, total_tokens := 0, embedding_model := none }

/-- A clean initial state: one pending document, no chunk rows, empty
vector store. -/
def pipelineState : AppState :=
  { docs := [pipelineDoc], chunk_rows := [], vectors := ⟨[]⟩ }

/-- An extraction outcome delivering `shortSentencesText`. -/
def pipelineExtraction : ExtractionResult :=
  { text := shortSentencesText, pages := [], error := none }

/-- An embedding outcome with one vector (the text chunks to one chunk). -/
def pipelineEmbed : EmbeddingBatchResult :=
  { embeddings := [[1]], model := "models/embedding-001", error := none }

/-- A deterministic stand-in for `str(uuid.uuid4())`. -/
def pipelineUuidGen : Nat → String := fun i => "uuid-" ++ toString i

/-- A processing run whose step-6 commit raises. -/
def pipelineFailRun : ProcessResult × AppState :=
  RAGService.process_document pipelineState 1 512 50 pipelineExtraction
    pipelineEmbed pipelineUuidGen true (some "IntegrityError: UNIQUE constraint failed")

/-- The same run with the commit succeeding. -/
def pipelineOkRun : ProcessResult × AppState :=
  RAGService.process_document pipelineState 1 512 50 pipelineExtraction
    pipelineEmbed pipelineUuidGen true none

/-- A second processing of the same document on the state the successful
run left behind: `POST /documents/<id>/reprocess` calls `process_document`
directly, with no cleanup of the prior rows or vectors, and each run mints
fresh uuids. -/
def pipelineReprocessRun : ProcessResult × AppState :=
  RAGService.process_document pipelineOkRun.2 1 512 50 pipelineExtraction
    pipelineEmbed (fun i => "uuid-second-" ++ toString i) true none

/-- A handle is present in a tenant collection of the vector store. -/
def entryInStore (v : VectorStoreState) (u : Nat) (cid : String) (did : Nat) : Prop :=
  ∃ c ∈ v.collections, c.1 = u ∧ (cid, did) ∈ c.2

/-! # Theorems -/

/-! ## C9 -/

/-- C9 counterexample: provider `gemini` with the stored non-empty secret
`"abc"` and shown-prefix length 8 masks to the empty string, not to the
first 8 characters of the secret followed by the ellipsis. -/
theorem masked_secret_short_counterexample :
    get_masked_system_api_key id ⟨[("system_api_key_gemini", "abc")]⟩ "gemini" 8 = "" ∧
    ("" : String) ≠ pyTake "abc" 8 ++ "..." := by
  exact ⟨rfl, by decide⟩

/-- C9 (amended): for a stored secret `s`, `maskedSecret(provider, n)`
returns the first `n` characters of `s` followed by `"..."` when `s` has at
least `n` characters, and the empty string when no secret is stored — or
when the stored secret is shorter than `n`. -/
theorem get_masked_system_api_key_spec (decrypt : String → String)
    (store : SettingsStore) (provider s : String) (n : Nat)
    (hs : get_system_api_key decrypt store provider = s) :
    (s ≠ "" → n ≤ s.length →
      get_masked_system_api_key decrypt store provider n = pyTake s n ++ "...") ∧
    (s = "" → get_masked_system_api_key decrypt store provider n = "") ∧
    (s ≠ "" → s.length < n →
      get_masked_system_api_key decrypt store provider n = "") := by
  unfold get_masked_system_api_key mask_api_key
  rw [hs]
  refine ⟨fun hne hlen => ?_, fun he => ?_, fun hne hlt => ?_⟩
  · rw [if_neg hne]
    have h1 : (s = "" || s.length < n) = false := by
      simp [hne, Nat.not_lt.mpr hlen]
    rw [h1]
    simp [pyTake, String.take]
  · rw [if_pos he]
  · rw [if_neg hne]
    have h1 : (s = "" || s.length < n) = true := by simp [hlt]
    rw [h1]
    rfl

/-- C9 witness: a 7-character secret masked with prefix length 4. -/
theorem get_masked_system_api_key_spec_witness :
    get_masked_system_api_key id ⟨[("system_api_key_gemini", "sk-g-ab")]⟩ "gemini" 4 =
      pyTake "sk-g-ab" 4 ++ "..." :=
  (get_masked_system_api_key_spec id ⟨[("system_api_key_gemini", "sk-g-ab")]⟩
    "gemini" "sk-g-ab" 4 (by decide)).1 (by decide) (by decide)

/-! ## C8 -/

/-- C8 counterexample: a user with no collection gets an empty result list
but the operation does report an error. -/
theorem query_absent_tenant_counterexample :
    (VectorStore.query ⟨[]⟩ 7 (Sum.inl [])).results = [] ∧
    (VectorStore.query ⟨[]⟩ 7 (Sum.inl [])).error ≠ none := by
  exact ⟨rfl, by decide⟩

/-- C8 (amended): for every user without a collection, `VectorStore.query`
returns the empty result list together with the error note
`"User has no document collection"` (callers treat this as empty). -/
theorem query_absent_tenant (state : VectorStoreState) (user_id : Nat)
    (chroma : List RawHit ⊕ String)
    (h : get_user_collection state user_id = none) :
    VectorStore.query state user_id chroma =
      { results := [], error := some "User has no document collection" } := by
  unfold VectorStore.query
  rw [h]

/-- C8 witness: the empty store. -/
theorem query_absent_tenant_witness :
    VectorStore.query ⟨[]⟩ 7 (Sum.inl []) =
      { results := [], error := some "User has no document collection" } :=
  query_absent_tenant ⟨[]⟩ 7 (Sum.inl []) rfl

/-! ## C10 -/

/-- C10: for every upload with a supported, non-empty file and free quota,
the `Document(...)` construction receives the `project_id` keyword, which
the model does not define, so the operation fails, returns no document id,
and leaves the `documents` table unchanged. -/
theorem save_uploaded_document_never_creates (reason : Option String)
    (filename : String) (docs : List DocRow) (user_id next_id : Nat)
    (hf : filename ≠ "")
    (hs : DocumentExtractor.is_supported (fileExt filename) = true) :
    (save_uploaded_document true reason filename docs user_id next_id).1.success = false ∧
    (save_uploaded_document true reason filename docs user_id next_id).1.document_id = none ∧
    (save_uploaded_document true reason filename docs user_id next_id).2 = docs := by
  have hinit : documentInit documentInitKwargs =
      Except.error "project_id is an invalid keyword argument for Document" := rfl
  unfold save_uploaded_document
  simp [hf, hs, hinit]

/-- C10 witness: uploading `report.pdf`. -/
theorem save_uploaded_document_never_creates_witness :
    ("report.pdf" : String) ≠ "" ∧
    DocumentExtractor.is_supported (fileExt "report.pdf") = true ∧
    (save_uploaded_document true none "report.pdf" [] 7 1).1.success = false ∧
    (save_uploaded_document true none "report.pdf" [] 7 1).1.document_id = none ∧
    (save_uploaded_document true none "report.pdf" [] 7 1).2 = [] :=
  ⟨by decide, by decide,
    save_uploaded_document_never_creates none "report.pdf" [] 7 1 (by decide) (by decide)⟩

/-! ## C2 -/

/-- C2: the chat endpoint resolves a supplied session handle without any
ownership check — user 2 presenting the handle of a chat owned by user 1 is
not rejected, and their user message is persisted into that chat. -/
theorem chat_turn_foreign_session_not_rejected :
    chat_resolve_and_persist_user [⟨5, "sess-a", "hello", 1⟩] [] 2 (some "sess-a")
        "hi" false 6 "new-uuid" =
      Except.ok (⟨5, "sess-a", "hello", 1⟩, [⟨5, "sess-a", "hello", 1⟩],
        [⟨5, "user", "hi"⟩]) ∧
    (1 : Nat) ≠ 2 := by
  exact ⟨rfl, by decide⟩

/-! ## C4 -/

/-- C4: with both a safety prompt and a RAG context present, the injected
message list is ordered [rag-system, safety-system, history…], not the
specified [safety-system, rag-system, history…] — the code prepends the
safety message first and then prepends the RAG message in front of it. -/
theorem inject_context_messages_rag_first :
    inject_context_messages [⟨"user", "Hello"⟩] (some "CTX") (some "SAFE") =
      [⟨"system", rag_system_content "CTX"⟩, ⟨"system", "SAFE"⟩, ⟨"user", "Hello"⟩] ∧
    inject_context_messages [⟨"user", "Hello"⟩] (some "CTX") (some "SAFE") ≠
      [⟨"system", "SAFE"⟩, ⟨"system", rag_system_content "CTX"⟩, ⟨"user", "Hello"⟩] := by
  exact ⟨rfl, by decide⟩

/-! ## C3 -/

/-- Helper: `content` events are never terminal. -/
theorem contentEvents_not_terminal (l : List (Option String)) :
    ∀ e ∈ contentEvents l, isTerminal e = false := by
  intro e he
  unfold contentEvents at he
  obtain ⟨a, _, ha⟩ := List.mem_filterMap.mp he
  obtain ⟨s, _, rfl⟩ := Option.map_eq_some'.mp ha
  rfl

/-- Helper: `content` events of the every-delta adapters are never
terminal. -/
theorem contentEventsAll_not_terminal (l : List String) :
    ∀ e ∈ contentEventsAll l, isTerminal e = false := by
  intro e he
  obtain ⟨s, _, rfl⟩ := List.mem_map.mp he
  rfl

/-- Helper: the Gemini adapter yields content events then exactly one
terminal event. -/
theorem gemini_stream_shape (api_key : String) (messages : List ChatMsg)
    (outcome : GeminiStreamOutcome) :
    ∃ pre t,
      _get_gemini_response_stream api_key messages outcome = pre ++ [t] ∧
      isTerminal t = true ∧ ∀ e ∈ pre, isTerminal e = false := by
  unfold _get_gemini_response_stream
  by_cases hk : api_key = ""
  · rw [if_pos hk]
    exact ⟨[], SSEEvent.error _, rfl, rfl, by simp⟩
  · rw [if_neg hk]
    cases outcome with
    | ok chunks meta =>
      exact ⟨contentEvents chunks, SSEEvent.done _ _, rfl, rfl,
        contentEvents_not_terminal chunks⟩
    | raised chunks e =>
      exact ⟨contentEvents chunks, SSEEvent.error _, rfl, rfl,
        contentEvents_not_terminal chunks⟩

/-- Helper: the OpenAI adapter yields content events then exactly one
terminal event. -/
theorem openai_stream_shape (api_key model_name : String) (has_images : Bool)
    (outcome : OpenAIStreamOutcome) :
    ∃ pre t,
      _get_openai_response_stream api_key model_name has_images outcome = pre ++ [t] ∧
      isTerminal t = true ∧ ∀ e ∈ pre, isTerminal e = false := by
  unfold _get_openai_response_stream
  by_cases hk : api_key = ""
  · rw [if_pos hk]
    exact ⟨[], SSEEvent.error _, rfl, rfl, by simp⟩
  · rw [if_neg hk]
    by_cases hv : (has_images &&
        !(pyContains (pyLower model_name) "gpt-4" ||
          pyContains (pyLower model_name) "gpt-5" ||
          pyContains (pyLower model_name) "vision")) = true
    · rw [if_pos hv]
      exact ⟨[], SSEEvent.error _, rfl, rfl, by simp⟩
    · rw [if_neg hv]
      cases outcome with
      | ok chunks usage_data =>
        exact ⟨contentEvents chunks, SSEEvent.done _ _, rfl, rfl,
          contentEvents_not_terminal chunks⟩
      | raised chunks exc =>
        exact ⟨contentEvents chunks, SSEEvent.error _, rfl, rfl,
          contentEvents_not_terminal chunks⟩

/-- Helper: the Anthropic adapter yields content events then exactly one
terminal event. -/
theorem anthropic_stream_shape (api_key : String) (outcome : HttpStreamOutcome) :
    ∃ pre t,
      _get_anthropic_response_stream api_key outcome = pre ++ [t] ∧
      isTerminal t = true ∧ ∀ e ∈ pre, isTerminal e = false := by
  unfold _get_anthropic_response_stream
  by_cases hk : api_key = ""
  · rw [if_pos hk]
    exact ⟨[], SSEEvent.error _, rfl, rfl, by simp⟩
  · rw [if_neg hk]
    cases outcome with
    | ok chunks usage_data =>
      exact ⟨contentEventsAll chunks, SSEEvent.done _ _, rfl, rfl,
        contentEventsAll_not_terminal chunks⟩
    | raised chunks exc =>
      exact ⟨contentEventsAll chunks, SSEEvent.error _, rfl, rfl,
        contentEventsAll_not_terminal chunks⟩

/-- Helper: the xAI adapter yields content events then exactly one
terminal event. -/
theorem grok_stream_shape (api_key : String) (outcome : HttpStreamOutcome) :
    ∃ pre t,
      _get_grok_response_stream api_key outcome = pre ++ [t] ∧
      isTerminal t = true ∧ ∀ e ∈ pre, isTerminal e = false := by
  unfold _get_grok_response_stream
  by_cases hk : api_key = ""
  · rw [if_pos hk]
    exact ⟨[], SSEEvent.error _, rfl, rfl, by simp⟩
  · rw [if_neg hk]
    cases outcome with
    | ok chunks usage_data =>
      exact ⟨contentEventsAll chunks, SSEEvent.done _ _, rfl, rfl,
        contentEventsAll_not_terminal chunks⟩
    | raised chunks exc =>
      exact ⟨contentEventsAll chunks, SSEEvent.error _, rfl, rfl,
        contentEventsAll_not_terminal chunks⟩

/-- Helper: the LM Studio adapter yields content events then exactly one
terminal event. -/
theorem lmstudio_stream_shape (url : String) (messages : List ChatMsg)
    (has_images vision_enabled : Bool) (outcome : HttpStreamOutcome) :
    ∃ pre t,
      _get_lmstudio_response_stream url messages has_images vision_enabled
          outcome = pre ++ [t] ∧
      isTerminal t = true ∧ ∀ e ∈ pre, isTerminal e = false := by
  unfold _get_lmstudio_response_stream
  by_cases hv : (has_images && !vision_enabled) = true
  · rw [if_pos hv]
    exact ⟨[], SSEEvent.error _, rfl, rfl, by simp⟩
  · rw [if_neg hv]
    cases outcome with
    | ok chunks usage_data =>
      exact ⟨contentEventsAll chunks, SSEEvent.done _ _, rfl, rfl,
        contentEventsAll_not_terminal chunks⟩
    | raised chunks exc =>
      exact ⟨contentEventsAll chunks, SSEEvent.error _, rfl, rfl,
        contentEventsAll_not_terminal chunks⟩

/-- Helper: the Ollama adapter yields content events then exactly one
terminal event. -/
theorem ollama_stream_shape (url : String) (messages : List ChatMsg)
    (has_images vision_enabled : Bool) (outcome : HttpStreamOutcome) :
    ∃ pre t,
      _get_ollama_response_stream url messages has_images vision_enabled
          outcome = pre ++ [t] ∧
      isTerminal t = true ∧ ∀ e ∈ pre, isTerminal e = false := by
  unfold _get_ollama_response_stream
  by_cases hv : (has_images && !vision_enabled) = true
  · rw [if_pos hv]
    exact ⟨[], SSEEvent.error _, rfl, rfl, by simp⟩
  · rw [if_neg hv]
    cases outcome with
    | ok chunks usage_data =>
      exact ⟨contentEventsAll chunks, SSEEvent.done _ _, rfl, rfl,
        contentEventsAll_not_terminal chunks⟩
    | raised chunks exc =>
      exact ⟨contentEventsAll chunks, SSEEvent.error _, rfl, rfl,
        contentEventsAll_not_terminal chunks⟩

/-- Helper: the outer `try`/`except` preserves the shape — a preamble
exception is itself a single terminal error event. -/
theorem with_preamble_shape (exc : Option String) (events : List SSEEvent)
    (h : ∃ pre t, events = pre ++ [t] ∧ isTerminal t = true ∧
      ∀ e ∈ pre, isTerminal e = false) :
    ∃ pre t, with_preamble exc events = pre ++ [t] ∧ isTerminal t = true ∧
      ∀ e ∈ pre, isTerminal e = false := by
  cases exc with
  | some e => exact ⟨[], SSEEvent.error e, rfl, rfl, by simp⟩
  | none => exact h

/-- C3: every invocation of the stream operation — any provider label
(covering all six in-repo adapters, the unknown-provider branch and the
outer exception handler) and any adapter data and iteration outcomes —
yields a finite event sequence that ends in exactly one terminal event
(`done` or `error`); every earlier event is a `content` event, so no event
of any kind follows the terminal one. -/
theorem get_response_stream_single_terminal (messages : List ChatMsg)
    (provider : String) (rag_context age_system_prompt : Option String)
    (d : ProviderStreamData) :
    ∃ pre t,
      get_response_stream messages provider rag_context age_system_prompt d =
        pre ++ [t] ∧
      isTerminal t = true ∧ ∀ e ∈ pre, isTerminal e = false := by
  simp only [get_response_stream]
  generalize (if pyLower provider = "lm_studio" then "lmstudio"
    else pyLower provider) = p
  by_cases h1 : p = "gemini"
  · rw [if_pos h1]
    exact with_preamble_shape _ _ (gemini_stream_shape _ _ _)
  rw [if_neg h1]
  by_cases h2 : p = "openai"
  · rw [if_pos h2]
    exact with_preamble_shape _ _ (openai_stream_shape _ _ _ _)
  rw [if_neg h2]
  by_cases h3 : p = "anthropic"
  · rw [if_pos h3]
    exact with_preamble_shape _ _ (anthropic_stream_shape _ _)
  rw [if_neg h3]
  by_cases h4 : p = "xai"
  · rw [if_pos h4]
    exact with_preamble_shape _ _ (grok_stream_shape _ _)
  rw [if_neg h4]
  by_cases h5 : p = "lmstudio"
  · rw [if_pos h5]
    exact with_preamble_shape _ _ (lmstudio_stream_shape _ _ _ _ _)
  rw [if_neg h5]
  by_cases h6 : p = "ollama"
  · rw [if_pos h6]
    exact with_preamble_shape _ _ (ollama_stream_shape _ _ _ _ _)
  rw [if_neg h6]
  exact ⟨[], SSEEvent.error _, rfl, rfl, by simp⟩

/-! ## C6 -/

set_option maxRecDepth 400000 in
set_option maxHeartbeats 1600000 in
/-- C6 counterexample: redacting `ssnChainText` once leaves the fragment
`999-88-7777` exposed at a fresh word boundary (the embedded occurrence of
the matched SSN literal was rewritten by `str.replace`), so a second
application changes the text again: the filter is not idempotent. -/
theorem filter_message_not_idempotent :
    filter_message (filter_message ssnChainText) ≠ filter_message ssnChainText := by
  decide

/-- Helper: a pattern without a match leaves the text unchanged. -/
theorem applyPattern_of_search_none (p : NamedPattern) (t : String)
    (h : reSearch p.re t = none) : applyPattern p t = t := by
  simp only [reSearch] at h
  simp only [applyPattern, finditer]
  rw [h]
  rfl

/-- Helper: a fold of pattern applications that all fix `t` fixes `t`. -/
theorem foldl_applyPattern_id :
    ∀ (l : List NamedPattern) (t : String), (∀ p ∈ l, applyPattern p t = t) →
      l.foldl (fun t p => applyPattern p t) t = t := by
  intro l
  induction l with
  | nil => intro t _; rfl
  | cons p rest ih =>
    intro t h
    simp only [List.foldl_cons]
    rw [h p (by simp)]
    exact ih t (fun q hq => h q (by simp [hq]))

/-- C6 (amended): applying the filter to its own output returns that output
unchanged whenever the output no longer contains any sensitive pattern
match; a replacement can expose a fresh occurrence (see the
counterexample), in which case a second pass redacts further. -/
theorem filter_message_idempotent_on_clean (text : String)
    (h : has_sensitive_info (filter_message text) = false) :
    filter_message (filter_message text) = filter_message text := by
  have h' : ∀ p ∈ PATTERNS, reSearch p.re (filter_message text) = none := by
    intro p hp
    have hb := (List.any_eq_false.mp h) p hp
    exact Option.not_isSome_iff_eq_none.mp (by simp [hb])
  show filter_text (filter_message text) = filter_message text
  unfold filter_text
  exact foldl_applyPattern_id PATTERNS _
    (fun p hp => applyPattern_of_search_none p _ (h' p hp))

/-- C6 witness: a benign text. -/
theorem filter_message_idempotent_on_clean_witness :
    has_sensitive_info (filter_message "hello world") = false ∧
    filter_message (filter_message "hello world") = filter_message "hello world" :=
  ⟨by decide, filter_message_idempotent_on_clean "hello world" (by decide)⟩

/-! ## C1 -/

set_option maxRecDepth 200000 in
/-- C1 counterexample: a run in which steps 1-5 succeed and the step-6
commit raises.  The document is marked failed, no chunk rows exist, yet the
vector inserted in step 5 is still in the store (`delete_chunks_by_ids` was
never called): a state with vectors but no matching chunk rows is
observable. -/
theorem process_document_no_rollback_counterexample :
    pipelineFailRun.1.success = false ∧
    pipelineFailRun.2.docs =
      [{ id := 1, user_id := 7, status := "failed",
         error_message := some "IntegrityError: UNIQUE constraint failed",
         chunk_count := 0, total_tokens := 0, embedding_model := none }] ∧
    chunkRowsFor pipelineFailRun.2.chunk_rows 1 = [] ∧
    pipelineFailRun.2.vectors.collections = [(7, [("uuid-0", 1)])] ∧
    vectorsFor pipelineFailRun.2.vectors 1 = 1 := by
  decide

/-- Helper: `find?` over `updateDoc` transforms the found row, for
id-preserving updates. -/
theorem find_updateDoc (docs : List DocumentRec) (id : Nat)
    (f : DocumentRec → DocumentRec) (hf : ∀ d, (f d).id = d.id)
    (doc : DocumentRec) (h : docs.find? (fun d => d.id = id) = some doc) :
    (updateDoc docs id f).find? (fun d => d.id = id) = some (f doc) := by
  induction docs with
  | nil => simp at h
  | cons d rest ih =>
    by_cases hd : d.id = id
    · have hdoc : doc = d := by
        rw [List.find?_cons_of_pos _ (by simp [hd])] at h
        exact (Option.some.inj h).symm
      subst hdoc
      unfold updateDoc
      simp only [List.map_cons, if_pos hd]
      exact List.find?_cons_of_pos _ (by simp [hf, hd])
    · rw [List.find?_cons_of_neg _ (by simp [hd])] at h
      have hrest := ih h
      unfold updateDoc at hrest ⊢
      simp only [List.map_cons, if_neg hd]
      rw [List.find?_cons_of_neg _ (by simp [hd])]
      exact hrest

/-- Helper: after `add_chunks` ensured the tenant collection and appended
the entries, every appended entry is in the store. -/
theorem entryInStore_add (v : VectorStoreState) (u : Nat)
    (entries : List (String × Nat)) (cid : String) (did : Nat)
    (hmem : (cid, did) ∈ entries) :
    entryInStore (addToCollection (ensure_collection v u) u entries) u cid did := by
  obtain ⟨c, hc, hcu⟩ : ∃ c ∈ (ensure_collection v u).collections, c.1 = u := by
    unfold ensure_collection
    cases hfind : get_user_collection v u with
    | some l =>
      unfold get_user_collection at hfind
      obtain ⟨p, hp, _⟩ := Option.map_eq_some'.mp hfind
      refine ⟨p, by simp [List.mem_of_find?_eq_some hp], ?_⟩
      have := List.find?_some hp
      simpa using this
    | none => exact ⟨(u, []), by simp, rfl⟩
  refine ⟨(c.1, c.2 ++ entries), ?_, hcu, by simp [hmem]⟩
  unfold addToCollection
  simp only
  have : (fun x => if x.1 = u then (x.1, x.2 ++ entries) else x) c =
      (c.1, c.2 ++ entries) := by simp [hcu]
  exact this ▸ List.mem_map_of_mem _ hc

/-- C1 (amended): when the step-6 persistence fails after step 5 inserted
the vectors, the document is marked failed with the raised error and the
chunk rows stay absent, but the step-5 insertions are NOT rolled back —
`delete_chunks_by_ids` is never invoked and every inserted handle is still
in the vector store, so a state with vectors but no matching chunk rows is
observable. -/
theorem process_document_commit_failure_no_rollback
    (st : AppState) (document_id chunk_size overlap : Nat)
    (extraction : ExtractionResult) (embed : EmbeddingBatchResult)
    (uuidGen : Nat → String) (e : String) (doc : DocumentRec)
    (hdoc : st.docs.find? (fun d => d.id = document_id) = some doc)
    (hex : extraction.error = none)
    (htext : ¬ (pyStrip extraction.text = ""))
    (hchunks : ¬ (chunk_document extraction.text chunk_size overlap
        (if extraction.pages = [] then none else some extraction.pages) = []))
    (hembed : embed.error = none)
    (hlen : embed.embeddings.length = (chunk_document extraction.text chunk_size
        overlap (if extraction.pages = [] then none else some extraction.pages)).length) :
    (RAGService.process_document st document_id chunk_size overlap
        extraction embed uuidGen true (some e)).1.success = false ∧
    ((RAGService.process_document st document_id chunk_size overlap
        extraction embed uuidGen true (some e)).2.docs.find?
      (fun d => d.id = document_id)) = some (mark_failed (mark_processing doc) e) ∧
    (RAGService.process_document st document_id chunk_size overlap
        extraction embed uuidGen true (some e)).2.chunk_rows = st.chunk_rows ∧
    ∀ i < (chunk_document extraction.text chunk_size overlap
        (if extraction.pages = [] then none else some extraction.pages)).length,
      entryInStore (RAGService.process_document st document_id chunk_size overlap
        extraction embed uuidGen true (some e)).2.vectors
        doc.user_id (uuidGen i) document_id := by
  have hrun : RAGService.process_document st document_id chunk_size overlap
      extraction embed uuidGen true (some e) =
      ({ success := false, chunk_count := 0, total_tokens := 0, error := some e },
       { docs := updateDoc (updateDoc st.docs document_id mark_processing)
           document_id (fun d => mark_failed d e),
         chunk_rows := st.chunk_rows,
         vectors := addToCollection (ensure_collection st.vectors doc.user_id)
           doc.user_id
           (((List.range (chunk_document extraction.text chunk_size overlap
               (if extraction.pages = [] then none else some extraction.pages)).length).map
             uuidGen).map (fun cid => (cid, document_id))) }) := by
    unfold RAGService.process_document
    rw [hdoc, hex]
    simp only [if_neg htext, if_neg hchunks, hembed]
    unfold VectorStore.add_chunks
    simp [hlen]
  refine ⟨by rw [hrun], ?_, by rw [hrun], ?_⟩
  · rw [hrun]
    exact find_updateDoc _ _ (fun d => mark_failed d e) (fun d => rfl) _
      (find_updateDoc _ _ mark_processing (fun d => rfl) _ hdoc)
  · intro i hi
    rw [hrun]
    apply entryInStore_add
    have h1 : uuidGen i ∈ (List.range (chunk_document extraction.text chunk_size
        overlap (if extraction.pages = [] then none else some extraction.pages)).length).map
        uuidGen :=
      List.mem_map_of_mem _ (List.mem_range.mpr hi)
    exact List.mem_map_of_mem _ h1

set_option maxRecDepth 200000 in
/-- C1 witness: the concrete failing run. -/
theorem process_document_commit_failure_no_rollback_witness :
    (RAGService.process_document pipelineState 1 512 50 pipelineExtraction
        pipelineEmbed pipelineUuidGen true
        (some "IntegrityError: UNIQUE constraint failed")).1.success = false ∧
    ((RAGService.process_document pipelineState 1 512 50 pipelineExtraction
        pipelineEmbed pipelineUuidGen true
        (some "IntegrityError: UNIQUE constraint failed")).2.docs.find?
      (fun d => d.id = 1)) =
      some (mark_failed (mark_processing pipelineDoc)
        "IntegrityError: UNIQUE constraint failed") ∧
    (RAGService.process_document pipelineState 1 512 50 pipelineExtraction
        pipelineEmbed pipelineUuidGen true
        (some "IntegrityError: UNIQUE constraint failed")).2.chunk_rows =
      pipelineState.chunk_rows ∧
    ∀ i < (chunk_document pipelineExtraction.text 512 50
        (if pipelineExtraction.pages = [] then none
         else some pipelineExtraction.pages)).length,
      entryInStore (RAGService.process_document pipelineState 1 512 50
          pipelineExtraction pipelineEmbed pipelineUuidGen true
          (some "IntegrityError: UNIQUE constraint failed")).2.vectors
        pipelineDoc.user_id (pipelineUuidGen i) 1 :=
  process_document_commit_failure_no_rollback pipelineState 1 512 50
    pipelineExtraction pipelineEmbed pipelineUuidGen
    "IntegrityError: UNIQUE constraint failed" pipelineDoc rfl rfl
    (by decide) (by decide) rfl (by decide)

/-! ## C5 -/

/-- Helper: a store with no vectors for a document counts zero. -/
theorem vectorsFor_eq_zero (v : VectorStoreState) (d : Nat)
    (h : ∀ c ∈ v.collections, ∀ p ∈ c.2, p.2 ≠ d) : vectorsFor v d = 0 := by
  unfold vectorsFor
  rw [List.sum_eq_zero]
  intro x hx
  simp only [List.mem_map] at hx
  obtain ⟨c, hc, rfl⟩ := hx
  rw [List.length_eq_zero, List.filter_eq_nil_iff]
  intro p hp
  simp [h c hc p hp]

/-- Helper: the collection update map is the identity away from `u`. -/
theorem map_addFn_of_not_mem (u : Nat) (entries : List (String × Nat))
    (l : List (Nat × List (String × Nat))) (h : ∀ c ∈ l, c.1 ≠ u) :
    l.map (fun c => if c.1 = u then (c.1, c.2 ++ entries) else c) = l := by
  induction l with
  | nil => rfl
  | cons c rest ih =>
    simp only [List.map_cons]
    rw [if_neg (h c (by simp)), ih (fun x hx => h x (by simp [hx]))]

/-- Helper: appending entries to the (unique) tenant collection adds
exactly the matching entries to the per-document count (list level). -/
theorem sum_filter_add_list (u : Nat) (entries : List (String × Nat)) (d : Nat) :
    ∀ l : List (Nat × List (String × Nat)),
      (l.map Prod.fst).Nodup → u ∈ l.map Prod.fst →
      ((l.map (fun c => if c.1 = u then (c.1, c.2 ++ entries) else c)).map
        (fun c => (c.2.filter (fun e => e.2 = d)).length)).sum =
      (l.map (fun c => (c.2.filter (fun e => e.2 = d)).length)).sum +
        (entries.filter (fun e => e.2 = d)).length := by
  intro l
  induction l with
  | nil => intro _ h; simp at h
  | cons c rest ih =>
    intro hnd hmem
    simp only [List.map_cons] at hnd hmem
    by_cases hc : c.1 = u
    · have hrest : ∀ x ∈ rest, x.1 ≠ u := by
        intro x hx h'
        exact (List.nodup_cons.mp hnd).1 (by
          rw [hc]
          exact h' ▸ List.mem_map_of_mem _ hx)
      simp only [List.map_cons, if_pos hc]
      rw [map_addFn_of_not_mem u entries rest hrest]
      simp only [List.sum_cons, List.filter_append, List.length_append]
      omega
    · have hmem' : u ∈ rest.map Prod.fst := by
        rcases List.mem_cons.mp hmem with h' | h'
        · exact absurd h'.symm hc
        · exact h'
      have hrec := ih (List.nodup_cons.mp hnd).2 hmem'
      simp only [List.map_cons, if_neg hc, List.sum_cons]
      omega

/-- Helper: `vectorsFor` after `addToCollection`, for a store whose tenant
ids are duplicate free and contain `u`. -/
theorem vectorsFor_addToCollection (v : VectorStoreState) (u : Nat)
    (entries : List (String × Nat)) (d : Nat)
    (hnd : (v.collections.map Prod.fst).Nodup)
    (hmem : u ∈ v.collections.map Prod.fst) :
    vectorsFor (addToCollection v u entries) d =
      vectorsFor v d + (entries.filter (fun e => e.2 = d)).length := by
  unfold vectorsFor addToCollection
  exact sum_filter_add_list u entries d v.collections hnd hmem

/-- Helper: ensuring a collection keeps the first components duplicate
free. -/
theorem ensure_collection_nodup (v : VectorStoreState) (u : Nat)
    (h : (v.collections.map Prod.fst).Nodup) :
    ((ensure_collection v u).collections.map Prod.fst).Nodup := by
  unfold ensure_collection
  cases hfind : get_user_collection v u with
  | some l => exact h
  | none =>
    unfold get_user_collection at hfind
    have hnone := Option.map_eq_none'.mp hfind
    have hno : ∀ c ∈ v.collections, c.1 ≠ u := by
      intro c hc
      have := List.find?_eq_none.mp hnone c hc
      simpa using this
    simp only [List.map_append, List.map_cons, List.map_nil]
    rw [List.nodup_append]
    refine ⟨h, List.nodup_singleton u, ?_⟩
    intro a ha hb
    simp only [List.mem_singleton] at hb
    obtain ⟨c, hc, rfl⟩ := List.mem_map.mp ha
    exact hno c hc hb

/-- Helper: after ensuring, the tenant collection exists. -/
theorem ensure_collection_mem (v : VectorStoreState) (u : Nat) :
    u ∈ (ensure_collection v u).collections.map Prod.fst := by
  unfold ensure_collection
  cases hfind : get_user_collection v u with
  | some l =>
    unfold get_user_collection at hfind
    obtain ⟨c, hc, _⟩ := Option.map_eq_some'.mp hfind
    have hcu : c.1 = u := by simpa using List.find?_some hc
    exact hcu ▸ List.mem_map_of_mem _ (List.mem_of_find?_eq_some hc)
  | none => simp

/-- Helper: ensuring a collection does not change any per-document count. -/
theorem ensure_collection_vectorsFor (v : VectorStoreState) (u d : Nat) :
    vectorsFor (ensure_collection v u) d = vectorsFor v d := by
  unfold ensure_collection
  cases get_user_collection v u with
  | some l => rfl
  | none => unfold vectorsFor; simp

/-- Helper: one chunk row is built per (chunk, handle) pair. -/
theorem buildChunkRows_length (did : Nat) (chunks : List Chunk)
    (ids : List String) (h : ids.length = chunks.length) :
    (buildChunkRows did chunks ids).length = chunks.length := by
  simp [buildChunkRows, h]

/-- Helper: every built row belongs to the document. -/
theorem buildChunkRows_document_id (did : Nat) (chunks : List Chunk)
    (ids : List String) :
    ∀ r ∈ buildChunkRows did chunks ids, r.document_id = did := by
  intro r hr
  unfold buildChunkRows at hr
  obtain ⟨p, _, rfl⟩ := List.mem_map.mp hr
  rfl

set_option maxRecDepth 400000 in
/-- C5 counterexample: reprocessing the ready document — the reprocess
route calls `process_document` directly, with no cleanup of the prior rows
or vectors and no unique `(document_id, chunk_index)` constraint — reports
success again, and the document ends `ready` with `chunk_count = 1` while
2 chunk rows and 2 vectors now exist for it. -/
theorem process_document_reprocess_counts_counterexample :
    pipelineReprocessRun.1.success = true ∧
    (∃ d ∈ pipelineReprocessRun.2.docs,
      d.id = 1 ∧ d.status = "ready" ∧ d.chunk_count = 1) ∧
    (chunkRowsFor pipelineReprocessRun.2.chunk_rows 1).length = 2 ∧
    vectorsFor pipelineReprocessRun.2.vectors 1 = 2 := by
  decide

/-- C5 (amended): for every run of `process_document` on a state holding
no prior rows or vectors for the document (its first processing;
duplicate-free tenant ids) that reports success, the document row is
`ready` and its recorded `chunk_count` equals both the number of
`DocumentChunk` rows persisted for the document and the number of vectors
inserted for it in the vector store.  Without the clean-state hypotheses
the invariant fails on reachable reprocessing runs (see the
counterexample). -/
theorem process_document_ready_counts
    (st : AppState) (document_id chunk_size overlap : Nat)
    (extraction : ExtractionResult) (embed : EmbeddingBatchResult)
    (uuidGen : Nat → String) (addOk : Bool) (commitOutcome : Option String)
    (hnd : (st.vectors.collections.map Prod.fst).Nodup)
    (hclean_rows : ∀ r ∈ st.chunk_rows, r.document_id ≠ document_id)
    (hclean_vecs : ∀ c ∈ st.vectors.collections, ∀ p ∈ c.2, p.2 ≠ document_id)
    (hsuccess : (RAGService.process_document st document_id chunk_size overlap
        extraction embed uuidGen addOk commitOutcome).1.success = true) :
    ∃ d, ((RAGService.process_document st document_id chunk_size overlap
        extraction embed uuidGen addOk commitOutcome).2.docs.find?
          (fun x => x.id = document_id)) = some d ∧
      d.status = "ready" ∧
      d.chunk_count = (chunkRowsFor (RAGService.process_document st document_id
          chunk_size overlap extraction embed uuidGen addOk
          commitOutcome).2.chunk_rows document_id).length ∧
      d.chunk_count = vectorsFor (RAGService.process_document st document_id
          chunk_size overlap extraction embed uuidGen addOk
          commitOutcome).2.vectors document_id := by
  unfold RAGService.process_document at hsuccess ⊢
  cases hfind : st.docs.find? (fun d => d.id = document_id) with
  | none => simp [hfind] at hsuccess
  | some doc =>
  simp only [hfind] at hsuccess ⊢
  cases hex : extraction.error with
  | some e => simp [hex] at hsuccess
  | none =>
  simp only [hex] at hsuccess ⊢
  by_cases htext : pyStrip extraction.text = ""
  · simp [if_pos htext] at hsuccess
  · simp only [if_neg htext] at hsuccess ⊢
    by_cases hchunks : chunk_document extraction.text chunk_size overlap
        (if extraction.pages = [] then none else some extraction.pages) = []
    · simp [if_pos hchunks] at hsuccess
    · simp only [if_neg hchunks] at hsuccess ⊢
      cases hembed : embed.error with
      | some e => simp [hembed] at hsuccess
      | none =>
      simp only [hembed] at hsuccess ⊢
      by_cases hlen : embed.embeddings.length = (chunk_document extraction.text
          chunk_size overlap (if extraction.pages = [] then none
            else some extraction.pages)).length
      · simp only [if_neg (by omega : ¬ (embed.embeddings.length ≠ (chunk_document
          extraction.text chunk_size overlap (if extraction.pages = [] then none
            else some extraction.pages)).length))] at hsuccess ⊢
        unfold VectorStore.add_chunks at hsuccess ⊢
        simp only [if_neg (by omega : ¬ ((chunk_document extraction.text
          chunk_size overlap (if extraction.pages = [] then none
            else some extraction.pages)).length ≠ embed.embeddings.length))]
          at hsuccess ⊢
        cases addOk with
        | false => simp at hsuccess
        | true =>
        simp only [if_true] at hsuccess ⊢
        rw [if_neg (by simp)] at hsuccess
        rw [if_neg (by simp)]
        cases commitOutcome with
        | some e => simp at hsuccess
        | none =>
        set chunksE := chunk_document extraction.text chunk_size overlap
          (if extraction.pages = [] then none else some extraction.pages) with hcdef
        set ids := List.map uuidGen (List.range chunksE.length) with hidsdef
        refine ⟨mark_ready (mark_processing doc) chunksE.length
          ((chunksE.map (fun c => c.token_count)).sum) embed.model, ?_, rfl, ?_, ?_⟩
        · exact find_updateDoc _ _
            (fun d => mark_ready d chunksE.length
              ((chunksE.map (fun c => c.token_count)).sum) embed.model)
            (fun d => rfl) _
            (find_updateDoc _ _ mark_processing (fun d => rfl) _ hfind)
        · show chunksE.length = (chunkRowsFor
            (st.chunk_rows ++ buildChunkRows document_id chunksE ids) document_id).length
          have hold : st.chunk_rows.filter (fun r => decide (r.document_id = document_id)) = [] :=
            List.filter_eq_nil_iff.mpr (fun r hr => by simp [hclean_rows r hr])
          have hnew : (buildChunkRows document_id chunksE ids).filter
              (fun r => decide (r.document_id = document_id)) =
              buildChunkRows document_id chunksE ids :=
            List.filter_eq_self.mpr
              (fun r hr => by simp [buildChunkRows_document_id _ _ _ r hr])
          unfold chunkRowsFor
          rw [List.filter_append, hold, hnew, List.nil_append,
            buildChunkRows_length document_id chunksE ids (by simp [hidsdef])]
        · show chunksE.length = vectorsFor (addToCollection
            (ensure_collection st.vectors doc.user_id) doc.user_id
            (ids.map (fun cid => (cid, document_id)))) document_id
          rw [vectorsFor_addToCollection _ _ _ _
            (ensure_collection_nodup _ _ hnd) (ensure_collection_mem _ _),
            ensure_collection_vectorsFor,
            vectorsFor_eq_zero _ _ hclean_vecs]
          have hfil : (ids.map (fun cid => (cid, document_id))).filter
              (fun e => decide (e.2 = document_id)) =
              ids.map (fun cid => (cid, document_id)) :=
            List.filter_eq_self.mpr (fun a ha => by
              obtain ⟨cid, _, rfl⟩ := List.mem_map.mp ha
              simp)
          rw [hfil]
          simp [hidsdef]
      · simp [if_pos (by omega : embed.embeddings.length ≠ (chunk_document
          extraction.text chunk_size overlap (if extraction.pages = [] then none
            else some extraction.pages)).length)] at hsuccess

set_option maxRecDepth 200000 in
/-- C5 witness: the concrete successful run. -/
theorem process_document_ready_counts_witness :
    ∃ d, ((RAGService.process_document pipelineState 1 512 50
        pipelineExtraction pipelineEmbed pipelineUuidGen true none).2.docs.find?
          (fun x => x.id = 1)) = some d ∧
      d.status = "ready" ∧
      d.chunk_count = (chunkRowsFor (RAGService.process_document pipelineState 1
          512 50 pipelineExtraction pipelineEmbed pipelineUuidGen true
          none).2.chunk_rows 1).length ∧
      d.chunk_count = vectorsFor (RAGService.process_document pipelineState 1
          512 50 pipelineExtraction pipelineEmbed pipelineUuidGen true
          none).2.vectors 1 :=
  process_document_ready_counts pipelineState 1 512 50 pipelineExtraction
    pipelineEmbed pipelineUuidGen true none (by decide) (by decide) (by decide)
    (by decide)

/-! ## C7 -/

set_option maxRecDepth 200000 in
/-- C7 counterexample: a single 100-character word with `chunkSize = 10`,
`overlap = 5` yields a chunk of 25 estimated tokens (`> chunkSize +
overlap`), and 67 three-character sentences with the default parameters
yield a chunk whose `token_count` is 0 (`¬ 0 < token_count`). -/
theorem chunker_token_bounds_counterexample :
    (∃ c ∈ chunk_document oversizedWordText 10 5 none, 10 + 5 < c.token_count) ∧
    (∃ c ∈ chunk_document shortSentencesText 512 50 none,
      ¬ 0 < c.token_count) := by
  decide

/-- Helper: the overlap seed never exceeds the overlap budget (loop). -/
theorem takeOverlapGo_le (tokOf : String → Nat) (ov : Nat) :
    ∀ (l acc : List String) (t : Nat), t ≤ ov →
      (takeOverlapGo tokOf ov l acc t).2 ≤ ov := by
  intro l
  induction l with
  | nil => intro acc t ht; exact ht
  | cons s rest ih =>
    intro acc t ht
    unfold takeOverlapGo
    by_cases h : t + tokOf s ≤ ov
    · rw [if_pos h]; exact ih _ _ h
    · rw [if_neg h]; exact ht

/-- Helper: the overlap seed never exceeds the overlap budget. -/
theorem takeOverlap_le (tokOf : String → Nat) (ov : Nat) (l : List String) :
    (takeOverlap tokOf ov l).2 ≤ ov :=
  takeOverlapGo_le tokOf ov l.reverse [] 0 (Nat.zero_le ov)

/-- Helper: invariant of the word loop — when every word (with its
trailing space) estimates within `chunk_size`, the running buffer and every
emitted chunk stay within `chunk_size + overlap` tokens. -/
theorem split_large_go_inv (cs ov : Nat) :
    ∀ (ws : List String) (st : SplitState),
      (∀ w ∈ ws, count_tokens (w ++ " ") ≤ cs) →
      (st.current_words = [] → st.current_tokens = 0) →
      st.current_tokens ≤ cs + ov →
      (∀ c ∈ st.chunks, c.token_count ≤ cs + ov) →
      ((split_large_go cs ov ws st).current_tokens ≤ cs + ov ∧
       ∀ c ∈ (split_large_go cs ov ws st).chunks, c.token_count ≤ cs + ov) := by
  intro ws
  induction ws with
  | nil =>
    intro st _ _ h2 h3
    unfold split_large_go
    exact ⟨h2, h3⟩
  | cons w rest ih =>
    intro st hw h1 h2 h3
    have hwh : count_tokens (w ++ " ") ≤ cs := hw w (by simp)
    simp only [split_large_go]
    by_cases hcond : st.current_tokens + count_tokens (w ++ " ") > cs ∧
        st.current_words ≠ []
    · rw [if_pos hcond]
      apply ih _ (fun x hx => hw x (by simp [hx]))
      · intro habs; simp at habs
      · have := takeOverlap_le (fun s => count_tokens (s ++ " ")) ov st.current_words
        simp only
        omega
      · intro c hc
        rcases List.mem_append.mp hc with h | h
        · exact h3 c h
        · simp only [List.mem_singleton] at h
          subst h
          exact h2
    · rw [if_neg hcond]
      apply ih _ (fun x hx => hw x (by simp [hx]))
      · intro habs; simp at habs
      · rcases not_and_or.mp hcond with h | h
        · simp only
          omega
        · have hz : st.current_tokens = 0 := h1 (not_not.mp h)
          simp only
          omega
      · exact h3

/-- Helper: `_split_large_text` bound under the per-word hypothesis. -/
theorem _split_large_text_bound (text : String) (cs ov off : Nat)
    (hw : ∀ w ∈ pySplitWs text, count_tokens (w ++ " ") ≤ cs) :
    ∀ c ∈ _split_large_text text cs ov off, c.token_count ≤ cs + ov := by
  unfold _split_large_text
  have hinv := split_large_go_inv cs ov (pySplitWs text)
    { current_words := [], current_tokens := 0, current_start := off, chunks := [] }
    hw (fun _ => rfl) (Nat.zero_le _) (by simp)
  by_cases hne : (split_large_go cs ov (pySplitWs text)
      { current_words := [], current_tokens := 0, current_start := off,
        chunks := [] }).current_words = []
  · rw [if_neg (by simp [hne])]
    exact hinv.2
  · rw [if_pos (by simp [hne])]
    intro c hc
    rcases List.mem_append.mp hc with h | h
    · exact hinv.2 c h
    · simp only [List.mem_singleton] at h
      subst h
      exact hinv.1

/-- Helper: invariant of the sentence loop — a sentence within
`chunk_size` is appended (keeping the buffer within bounds), an oversized
sentence is diverted to the word splitter. -/
theorem chunk_text_go_inv (full_text : String) (cs ov off : Nat) :
    ∀ (sentences : List String) (st : ChunkState),
      (∀ s ∈ sentences, ∀ w ∈ pySplitWs s, count_tokens (w ++ " ") ≤ cs) →
      (st.current_chunk = [] → st.current_tokens = 0) →
      st.current_tokens ≤ cs + ov →
      (∀ c ∈ st.chunks, c.token_count ≤ cs + ov) →
      ((chunk_text_go full_text cs ov off sentences st).current_tokens ≤ cs + ov ∧
       ∀ c ∈ (chunk_text_go full_text cs ov off sentences st).chunks,
         c.token_count ≤ cs + ov) := by
  intro sentences
  induction sentences with
  | nil =>
    intro st _ _ h2 h3
    unfold chunk_text_go
    exact ⟨h2, h3⟩
  | cons s rest ih =>
    intro st hw h1 h2 h3
    simp only [chunk_text_go]
    by_cases hbig : count_tokens s > cs
    · rw [if_pos hbig]
      apply ih _ (fun x hx => hw x (by simp [hx]))
      · intro _; rfl
      · exact Nat.zero_le _
      · intro c hc
        rcases List.mem_append.mp hc with h | h
        · by_cases hne : st.current_chunk ≠ []
          · rw [if_pos hne] at h
            rcases List.mem_append.mp h with h' | h'
            · exact h3 c h'
            · simp only [List.mem_singleton] at h'
              subst h'
              exact h2
          · rw [if_neg hne] at h
            exact h3 c h
        · exact _split_large_text_bound s cs ov off (hw s (by simp)) c h
    · rw [if_neg hbig]
      by_cases hcond : st.current_tokens + count_tokens s > cs ∧
          st.current_chunk ≠ []
      · rw [if_pos hcond]
        apply ih _ (fun x hx => hw x (by simp [hx]))
        · intro habs; simp at habs
        · have := takeOverlap_le count_tokens ov st.current_chunk
          simp only
          omega
        · intro c hc
          rcases List.mem_append.mp hc with h | h
          · exact h3 c h
          · simp only [List.mem_singleton] at h
            subst h
            exact h2
      · rw [if_neg hcond]
        apply ih _ (fun x hx => hw x (by simp [hx]))
        · intro habs; simp at habs
        · rcases not_and_or.mp hcond with h | h
          · simp only
            omega
          · have hz : st.current_tokens = 0 := h1 (not_not.mp h)
            simp only
            omega
        · exact h3

/-- Helper: `_chunk_text` bound under the per-word hypothesis. -/
theorem _chunk_text_bound (text : String) (cs ov off : Nat)
    (hw : ∀ s ∈ _split_into_sentences (pyStrip text), ∀ w ∈ pySplitWs s,
      count_tokens (w ++ " ") ≤ cs) :
    ∀ c ∈ _chunk_text text cs ov off, c.token_count ≤ cs + ov := by
  intro c hc
  have hinv := chunk_text_go_inv (pyStrip text) cs ov off
    (_split_into_sentences (pyStrip text))
    { current_chunk := [], current_tokens := 0, current_start := off, chunks := [] }
    hw (fun _ => rfl) (Nat.zero_le _) (by simp)
  unfold _chunk_text at hc
  by_cases hempty : pyStrip text = ""
  · rw [if_pos hempty] at hc
    simp at hc
  · rw [if_neg hempty] at hc
    simp only [ne_eq] at hc
    split at hc
    · split at hc
      · rcases List.mem_append.mp hc with h | h
        · exact hinv.2 c h
        · simp only [List.mem_singleton] at h
          subst h
          exact hinv.1
      · exact hinv.2 c hc
    · exact hinv.2 c hc

/-- Helper: provided every whitespace-separated word of every sentence
estimates (with its trailing space) to at most `chunkSize` tokens, every
chunk produced has `token_count ≤ chunkSize + overlap`. -/
theorem chunk_document_token_count_bound (text : String) (cs ov : Nat)
    (hw : ∀ s ∈ _split_into_sentences (pyStrip text), ∀ w ∈ pySplitWs s,
      count_tokens (w ++ " ") ≤ cs) :
    ∀ c ∈ chunk_document text cs ov none, c.token_count ≤ cs + ov := by
  unfold chunk_document
  by_cases hempty : pyStrip text = ""
  · rw [if_pos hempty]
    intro c hc
    simp at hc
  · rw [if_neg hempty]
    exact _chunk_text_bound text cs ov 0 hw

/-- Helper: the overlap seed is a reversed prefix of the reversed buffer
(loop). -/
theorem takeOverlapGo_shape (tokOf : String → Nat) (ov : Nat) :
    ∀ (rl acc : List String) (t : Nat),
      ∃ m, m ≤ rl.length ∧
        (takeOverlapGo tokOf ov rl acc t).1 = (rl.take m).reverse ++ acc := by
  intro rl
  induction rl with
  | nil => intro acc t; exact ⟨0, by simp, by simp [takeOverlapGo]⟩
  | cons s rest ih =>
    intro acc t
    unfold takeOverlapGo
    by_cases h : t + tokOf s ≤ ov
    · rw [if_pos h]
      obtain ⟨m, hm, he⟩ := ih (s :: acc) (t + tokOf s)
      refine ⟨m + 1, by simp; omega, ?_⟩
      rw [he]
      simp [List.take_succ_cons]
    · rw [if_neg h]
      exact ⟨0, by simp, by simp⟩

/-- Helper: the overlap seed kept after emitting a chunk is a suffix of the
emitted buffer. -/
theorem takeOverlap_suffix (tokOf : String → Nat) (ov : Nat) (l : List String) :
    ∃ j, j ≤ l.length ∧ (takeOverlap tokOf ov l).1 = l.drop j := by
  obtain ⟨m, hm, he⟩ := takeOverlapGo_shape tokOf ov l.reverse [] 0
  rw [List.length_reverse] at hm
  refine ⟨l.length - m, by omega, ?_⟩
  unfold takeOverlap
  rw [he, List.append_nil]
  rw [List.take_reverse]
  simp

/-- Helper: invariant of the sentence loop when no sentence exceeds
`chunk_size` tokens — the buffer is a contiguous run `(all.take k).drop i` of
the sentence list, and every emitted chunk is the space-join of such a run,
the runs advancing monotonically. -/
theorem chunk_text_go_segments (full_text : String) (cs ov off : Nat)
    (all : List String) :
    ∀ (rest : List String) (k i : Nat) (st : ChunkState) (segs : List (Nat × Nat)),
      all.drop k = rest → k ≤ all.length → i ≤ k →
      (∀ s ∈ rest, count_tokens s ≤ cs) →
      st.current_chunk = (all.take k).drop i →
      st.chunks.map (fun c => c.content) =
        segs.map (fun p => pyJoin " " ((all.take p.2).drop p.1)) →
      (∀ p ∈ segs, p.1 ≤ i ∧ p.2 ≤ k ∧ p.1 ≤ p.2) →
      List.Chain' (fun a b => a.1 ≤ b.1 ∧ a.2 ≤ b.2) segs →
      ∃ (segs' : List (Nat × Nat)) (i' : Nat),
        i' ≤ all.length ∧
        (chunk_text_go full_text cs ov off rest st).current_chunk = all.drop i' ∧
        (chunk_text_go full_text cs ov off rest st).chunks.map (fun c => c.content) =
          segs'.map (fun p => pyJoin " " ((all.take p.2).drop p.1)) ∧
        (∀ p ∈ segs', p.1 ≤ i' ∧ p.2 ≤ all.length ∧ p.1 ≤ p.2) ∧
        List.Chain' (fun a b => a.1 ≤ b.1 ∧ a.2 ≤ b.2) segs' := by
  intro rest
  induction rest with
  | nil =>
    intro k i st segs hdrop hk hi _ hbuf hchunks hdom hchain
    have hkl : k = all.length := by
      have := List.drop_eq_nil_iff.mp hdrop
      omega
    refine ⟨segs, i, by omega, ?_, hchunks, ?_, hchain⟩
    · unfold chunk_text_go
      rw [hbuf, hkl, List.take_length]
    · intro p hp
      have := hdom p hp
      omega
  | cons s rest2 ih =>
    intro k i st segs hdrop hk hi hsmall hbuf hchunks hdom hchain
    have hkl : k < all.length := by
      have hh := List.length_drop k all
      rw [hdrop] at hh
      simp at hh
      omega
    have hget : all[k]? = some s := by
      rw [← List.head?_drop, hdrop]
      rfl
    have hhead : all.take (k + 1) = all.take k ++ [s] := by
      rw [List.take_succ, hget]
      rfl
    have hdrop2 : all.drop (k + 1) = rest2 := by
      rw [← List.tail_drop, hdrop]
      rfl
    have hlen_take : (all.take k).length = k := by
      rw [List.length_take]
      omega
    have hss : count_tokens s ≤ cs := hsmall s (by simp)
    simp only [chunk_text_go]
    rw [if_neg (by omega : ¬ count_tokens s > cs)]
    by_cases hcond : st.current_tokens + count_tokens s > cs ∧ st.current_chunk ≠ []
    · rw [if_pos hcond]
      obtain ⟨j, hj, hjs⟩ := takeOverlap_suffix count_tokens ov st.current_chunk
      have hjlen : i + j ≤ k := by
        rw [hbuf, List.length_drop, hlen_take] at hj
        omega
      apply ih (k + 1) (i + j) _ (segs ++ [(i, k)]) hdrop2 (by omega) (by omega)
        (fun x hx => hsmall x (by simp [hx]))
      · show (takeOverlap count_tokens ov st.current_chunk).1 ++ [s] =
          (all.take (k + 1)).drop (i + j)
        rw [hjs, hbuf, List.drop_drop, hhead,
          List.drop_append_of_le_length (by omega)]
      · rw [List.map_append, List.map_append, hchunks]
        simp only [List.map_cons, List.map_nil]
        rw [hbuf]
      · intro p hp
        rcases List.mem_append.mp hp with h | h
        · have := hdom p h
          exact ⟨by omega, by omega, by omega⟩
        · simp only [List.mem_singleton] at h
          subst h
          exact ⟨by omega, by omega, by omega⟩
      · rw [List.chain'_append]
        refine ⟨hchain, List.chain'_singleton _, ?_⟩
        intro x hx y hy
        simp only [List.head?_cons, Option.mem_def, Option.some.injEq] at hy
        subst hy
        have hxm : x ∈ segs := List.mem_of_mem_getLast? hx
        have := hdom x hxm
        exact ⟨by omega, by omega⟩
    · rw [if_neg hcond]
      apply ih (k + 1) i _ segs hdrop2 (by omega) (by omega)
        (fun x hx => hsmall x (by simp [hx]))
      · show st.current_chunk ++ [s] = (all.take (k + 1)).drop i
        rw [hbuf, hhead, List.drop_append_of_le_length (by omega)]
      · exact hchunks
      · intro p hp
        have := hdom p hp
        exact ⟨by omega, by omega, by omega⟩
      · exact hchain

/-- Helper: when every sentence estimates within `chunk_size` tokens, the
chunks of `chunk_document` are space-joins of contiguous, monotonically
advancing sentence runs. -/
theorem chunk_document_order (text : String) (cs ov : Nat)
    (hsmall : ∀ s ∈ _split_into_sentences (pyStrip text), count_tokens s ≤ cs) :
    ∃ segs : List (Nat × Nat),
      (chunk_document text cs ov none).map (fun c => c.content) =
        segs.map (fun p => pyJoin " "
          (((_split_into_sentences (pyStrip text)).take p.2).drop p.1)) ∧
      (∀ p ∈ segs, p.1 ≤ p.2 ∧
        p.2 ≤ (_split_into_sentences (pyStrip text)).length) ∧
      List.Chain' (fun a b => a.1 ≤ b.1 ∧ a.2 ≤ b.2) segs := by
  by_cases hz : pyStrip text = ""
  · refine ⟨[], ?_, ?_, List.chain'_nil⟩
    · simp [chunk_document, hz]
    · simp
  obtain ⟨segs', i', hi', hbuf, hmap, hdom, hchain⟩ :=
    chunk_text_go_segments (pyStrip text) cs ov 0 (_split_into_sentences (pyStrip text))
      (_split_into_sentences (pyStrip text)) 0 0
      { current_chunk := [], current_tokens := 0, current_start := 0, chunks := [] }
      [] rfl (Nat.zero_le _) (le_refl 0) hsmall rfl rfl (by simp) List.chain'_nil
  have hcd : chunk_document text cs ov none = _chunk_text text cs ov 0 := by
    simp [chunk_document, hz]
  rw [hcd]
  simp only [_chunk_text]
  rw [if_neg hz]
  set st := chunk_text_go (pyStrip text) cs ov 0 (_split_into_sentences (pyStrip text))
    { current_chunk := [], current_tokens := 0, current_start := 0, chunks := [] } with hst
  split
  · split
    · refine ⟨segs' ++ [(i', (_split_into_sentences (pyStrip text)).length)], ?_, ?_, ?_⟩
      · rw [List.map_append, List.map_append, hmap]
        simp only [List.map_cons, List.map_nil]
        rw [hbuf, List.take_length]
      · intro p hp
        rcases List.mem_append.mp hp with h | h
        · have := hdom p h
          omega
        · simp only [List.mem_singleton] at h
          subst h
          exact ⟨hi', le_refl _⟩
      · rw [List.chain'_append]
        refine ⟨hchain, List.chain'_singleton _, ?_⟩
        intro x hx y hy
        simp only [List.head?_cons, Option.mem_def, Option.some.injEq] at hy
        subst hy
        have := hdom x (List.mem_of_mem_getLast? hx)
        exact ⟨by omega, by omega⟩
    · refine ⟨segs', hmap, ?_, hchain⟩
      intro p hp
      have := hdom p hp
      omega
  · refine ⟨segs', hmap, ?_, hchain⟩
    intro p hp
    have := hdom p hp
    omega

/-- C7 (amended): the claimed bounds fail in general (see the
counterexample) — `token_count` can exceed `chunkSize + overlap` through the
oversized-word word loop, and the trailing chunk can carry `token_count = 0`.
Amended: (1) when every whitespace-separated word of every sentence estimates
(with its trailing space) to at most `chunkSize` tokens, every chunk has
`token_count ≤ chunkSize + overlap`; and (2) when every sentence estimates to
at most `chunkSize` tokens, the chunks appear in original-text order — each
chunk content is the space-join of a contiguous run of the sentence list, and
the runs advance monotonically (both endpoints non-decreasing). -/
theorem chunk_document_bound_and_order (text : String) (cs ov : Nat) :
    ((∀ s ∈ _split_into_sentences (pyStrip text), ∀ w ∈ pySplitWs s,
        count_tokens (w ++ " ") ≤ cs) →
      ∀ c ∈ chunk_document text cs ov none, c.token_count ≤ cs + ov) ∧
    ((∀ s ∈ _split_into_sentences (pyStrip text), count_tokens s ≤ cs) →
      ∃ segs : List (Nat × Nat),
        (chunk_document text cs ov none).map (fun c => c.content) =
          segs.map (fun p => pyJoin " "
            (((_split_into_sentences (pyStrip text)).take p.2).drop p.1)) ∧
        (∀ p ∈ segs, p.1 ≤ p.2 ∧
          p.2 ≤ (_split_into_sentences (pyStrip text)).length) ∧
        List.Chain' (fun a b => a.1 ≤ b.1 ∧ a.2 ≤ b.2) segs) :=
  ⟨chunk_document_token_count_bound text cs ov, chunk_document_order text cs ov⟩

set_option maxRecDepth 200000 in
/-- C7 witness: a small two-sentence text under the default parameters
satisfies both hypotheses, so both the token bound and the ordered-runs
conclusion hold for it. -/
theorem chunk_document_bound_and_order_witness :
    (∀ s ∈ _split_into_sentences (pyStrip "Hello there. How are you."),
      ∀ w ∈ pySplitWs s, count_tokens (w ++ " ") ≤ 512) ∧
    (∀ s ∈ _split_into_sentences (pyStrip "Hello there. How are you."),
      count_tokens s ≤ 512) ∧
    (∀ c ∈ chunk_document "Hello there. How are you." 512 50 none,
      c.token_count ≤ 512 + 50) ∧
    ∃ segs : List (Nat × Nat),
      (chunk_document "Hello there. How are you." 512 50 none).map
          (fun c => c.content) =
        segs.map (fun p => pyJoin " "
          (((_split_into_sentences
            (pyStrip "Hello there. How are you.")).take p.2).drop p.1)) ∧
      (∀ p ∈ segs, p.1 ≤ p.2 ∧
        p.2 ≤ (_split_into_sentences
          (pyStrip "Hello there. How are you.")).length) ∧
      List.Chain' (fun a b => a.1 ≤ b.1 ∧ a.2 ≤ b.2) segs :=
  ⟨by decide, by decide,
    (chunk_document_bound_and_order "Hello there. How are you." 512 50).1
      (by decide),
    (chunk_document_bound_and_order "Hello there. How are you." 512 50).2
      (by decide)⟩
